import Mathlib

/-!
Verification development for the tool-call dispatcher and editor session
state machine of a browser-resident AI code editor.

The embedding follows the two source files:
  * `frontend/js/editor.js`   — session store, tab/view state machine
  * `frontend/js/tool_executor.js` — tool dispatcher, checkpoint
    interception, execution boundary with post-edit diagnostics.

JavaScript values are embedded shallowly: strings used as keys and
messages become `String`, file/buffer contents become `List Char`
(JS strings are sequences of code units), `Map` objects become
insertion-ordered association lists, `undefined`-able parameters become
`Option`, thrown exceptions become `Except.error`, and external
collaborators (file system, persistence layer, network, Monaco editor
internals, acorn) become oracle data threaded through the functions.
-/

set_option autoImplicit false

namespace AICodeEditor

/-! ## Association lists (the JS `Map` with string keys)

A JS `Map` iterates in insertion order; `set` on an existing key updates
the value in place keeping the original position; `delete` removes the
(unique) entry.  We embed it as a `List (String × α)`; all operations
below preserve key uniqueness, which `Map` guarantees by construction. -/

/-- `Map.get`: first value stored under key `k`. -/
def alookup {α : Type} (k : String) : List (String × α) → Option α
  | [] => none
  | (k2, v) :: rest => if k2 = k then some v else alookup k rest

/-- `Map.set`: update in place if the key is present, else append. -/
def aset {α : Type} (k : String) (v : α) : List (String × α) → List (String × α)
  | [] => [(k, v)]
  | (k2, w) :: rest => if k2 = k then (k2, v) :: rest else (k2, w) :: aset k v rest

/-- `Map.delete`: remove the first entry stored under key `k`. -/
def aerase {α : Type} (k : String) : List (String × α) → List (String × α)
  | [] => []
  | (k2, w) :: rest => if k2 = k then rest else (k2, w) :: aerase k rest

/-- `Map.keys()` in iteration order. -/
def akeys {α : Type} (l : List (String × α)) : List String :=
  l.map Prod.fst

/-- Apply `f` to the value stored under `k`, if present (in-place
object mutation such as `fileData.viewState = …`). -/
def aupdate {α : Type} (k : String) (f : α → α) : List (String × α) → List (String × α)
  | [] => []
  | (k2, w) :: rest => if k2 = k then (k2, f w) :: rest else (k2, w) :: aupdate k f rest

/-! ## JS string helpers -/

/-- `s.split(sep).pop()` for `sep = "."` — the file extension used by
`getLanguageFromExtension` and `getPrettierParser`. -/
def extOf (s : String) : String :=
  (s.splitOn ".").getLastD ""

/-- Last `/`-separated segment of a path: the `name` of a file handle /
`File` object obtained for that path. -/
def lastSeg (s : String) : String :=
  (s.splitOn "/").getLastD ""

/-- JS `String.prototype.split` where the separator is the TWO-character
sequence backslash `n` — this is what the source's `split('\\n')` in the
`insert_content` case denotes (a JS string literal `'\\n'` contains a
backslash followed by the letter `n`, not a newline). -/
def splitBsN : List Char → List (List Char)
  | [] => [[]]
  | '\\' :: 'n' :: rest => [] :: splitBsN rest
  | c :: rest =>
    match splitBsN rest with
    | [] => [[c]]
    | l :: ls => (c :: l) :: ls

/-- JS `Array.prototype.join` with the same two-character separator,
the source's `join('\\n')`. -/
def joinBsN (lines : List (List Char)) : List Char :=
  List.intercalate ['\\', 'n'] lines

/-- JS `Array.prototype.splice(i, 0, a)`: insert `a` at index `i`,
clamping `i` to the array length. -/
def spliceInsert {α : Type} (l : List α) (i : Nat) (a : α) : List α :=
  l.take i ++ [a] ++ l.drop i

/-! ## Data model (editor.js) -/

/-- The value type of the `openFiles` map:
`{ handle, name, model, viewState }`.  A Monaco text model is embedded
as an allocation number `modelId` (fresh per `createModel`), its text
content, and its language; `viewState` is an opaque saved
cursor/scroll state, embedded as `Nat`. -/
structure FileData where
  handle : String
  name : String
  modelId : Nat
  content : List Char
  language : String
  viewState : Option Nat
  deriving DecidableEq, Repr

/-- Module-level mutable state of editor.js plus the relevant live state
of the Monaco editor widget:
`openFiles` (insertion-ordered map), `activeFilePath`, a fresh-model
counter and the list of disposed model ids, the model currently bound to
the editor widget (`none` = a placeholder model), the widget's read-only
flag, whether `editor.focus()` has been invoked, the widget's live view
state (`editor.saveViewState()`), the rendered tab bar
(path, is-active), and the current selection as (start offset, length)
in the active buffer (`none` = no selection object). -/
structure EditorState where
  openFiles : List (String × FileData)
  activeFilePath : Option String
  nextModelId : Nat
  disposed : List Nat
  boundModel : Option Nat
  readOnly : Bool
  focused : Bool
  liveViewState : Nat
  tabBar : List (String × Bool)
  selection : Option (Nat × Nat)
  deriving DecidableEq, Repr

/-- State right after `initializeEditor`: no documents, placeholder
model bound, read-only widget. -/
def initialEditorState : EditorState :=
  { openFiles := []
    activeFilePath := none
    nextModelId := 0
    disposed := []
    boundModel := none
    readOnly := true
    focused := false
    liveViewState := 0
    tabBar := []
    selection := none }

/-- One entry of a serialized editor snapshot:
`{ path, content, viewState }`. -/
structure SnapFile where
  path : String
  content : List Char
  viewState : Option Nat
  deriving DecidableEq, Repr

/-- The serialized editor state `{ openFiles, activeFile }` used for
checkpoints (`getEditorState` / `restoreEditorState`). -/
structure EditorSnap where
  openFiles : List SnapFile
  activeFile : Option String
  deriving DecidableEq, Repr

/-- The on-disk contents reachable through the project-root directory
handle: a map from path to file text.  The file-system collaborator
(file_system.js) is outside the two source files; it is embedded as
operations on this map. -/
abbrev Disk : Type := List (String × List Char)

/-- A diagnostic marker as returned by
`monaco.editor.getModelMarkers`; `isError` embeds
`severity === monaco.MarkerSeverity.Error`. -/
structure Marker where
  line : Nat
  message : String
  isError : Bool
  deriving DecidableEq, Repr

/-! ## editor.js functions -/

/-- `getLanguageFromExtension` (editor.js). -/
def getLanguageFromExtension (ext : String) : String :=
  if ext = "cfm" then "html"
  else if ext = "cfml" then "html"
  else if ext = "js" then "javascript"
  else if ext = "ts" then "typescript"
  else if ext = "java" then "java"
  else if ext = "py" then "python"
  else if ext = "html" then "html"
  else if ext = "css" then "css"
  else if ext = "json" then "json"
  else if ext = "md" then "markdown"
  else if ext = "php" then "php"
  else "plaintext"

/-- `getPrettierParser` (editor.js). -/
def getPrettierParser (filename : String) : String :=
  let extension := extOf filename
  if extension = "js" ∨ extension = "ts" ∨ extension = "jsx" ∨ extension = "tsx" then "babel"
  else if extension = "html" then "html"
  else if extension = "css" ∨ extension = "scss" ∨ extension = "less" then "css"
  else if extension = "json" then "json"
  else if extension = "md" then "markdown"
  else "babel"

/-- `renderTabs` (editor.js): the tab bar shows every open file in map
order, marking the active one. -/
def renderTabs (files : List (String × FileData)) (active : Option String) :
    List (String × Bool) :=
  files.map (fun kv => (kv.1, active = some kv.1))

/-- `clearEditor` (editor.js): bind a fresh placeholder model, make the
widget read-only, clear `activeFilePath` and `openFiles`.  (The
placeholder model is never stored in `openFiles` nor disposed, so it is
embedded simply as `boundModel := none`.) -/
def clearEditor (ed : EditorState) : EditorState :=
  { ed with
    boundModel := none
    readOnly := true
    activeFilePath := none
    openFiles := [] }

/-- The view-state capture performed at the top of both `switchTab` and
`getEditorState` (editor.js): if there is a truthy active path whose
document is open, store the widget's live view state into that
document's `viewState` field (the JS guard
`activeFilePath && openFiles.has(activeFilePath)`; the truthiness test
on the string is `≠ ""`). -/
def capturedOpenFiles (ed : EditorState) : List (String × FileData) :=
  match ed.activeFilePath with
  | some ap =>
    if ap ≠ "" ∧ (alookup ap ed.openFiles).isSome then
      aupdate ap (fun fd => { fd with viewState := some ed.liveViewState }) ed.openFiles
    else ed.openFiles
  | none => ed.openFiles

def captureViewState (ed : EditorState) : EditorState :=
  { ed with openFiles := capturedOpenFiles ed }

/-- `switchTab` (editor.js).  First the live view state of the current
active document is captured into its `viewState` field.
Then `activeFilePath` is set, the target's
model is bound, its stored view state restored, focus optionally
forced, the widget made writable and the tab strip re-rendered.
If the target path is missing from `openFiles` the JS throws a
`TypeError` after having already reassigned `activeFilePath`; the
embedding returns that partially-mutated state. -/
def switchTab (filePath : String) (focusEditor : Bool) (ed : EditorState) :
    EditorState :=
  let ed1 := captureViewState ed
  let ed2 := { ed1 with activeFilePath := some filePath }
  match alookup filePath ed2.openFiles with
  | none => ed2
  | some fd =>
    { ed2 with
      boundModel := some fd.modelId
      liveViewState := match fd.viewState with | some v => v | none => ed2.liveViewState
      focused := if focusEditor then true else ed2.focused
      readOnly := false
      tabBar := renderTabs ed2.openFiles (some filePath) }

/-- `openFile` (editor.js).  Re-opening a path already in `openFiles`
just switches to it.  Otherwise the file text is read through the given
handle (an fs read; a failed read is caught and logged, leaving the
state unchanged), a fresh model is created and the new document is
activated.  Returns the new state together with the collaborator
effects (declared later as part of the dispatcher embedding they feed
into) represented as the list of fs reads / console errors; here it is
a `Bool`: `true` iff the fs read happened.  The effect bookkeeping
proper is done by the caller in `dispatchTool`. -/
def openFile (disk : Disk) (handlePath filePath : String) (focusEditor : Bool)
    (ed : EditorState) : EditorState :=
  if (alookup filePath ed.openFiles).isSome then
    switchTab filePath focusEditor ed
  else
    match alookup handlePath disk with
    | none => ed
    | some content =>
      let fd : FileData :=
        { handle := handlePath
          name := lastSeg handlePath
          modelId := ed.nextModelId
          content := content
          language := getLanguageFromExtension (extOf (lastSeg handlePath))
          viewState := none }
      let ed1 := { ed with
        openFiles := aset filePath fd ed.openFiles
        nextModelId := ed.nextModelId + 1 }
      switchTab filePath focusEditor ed1

/-- `closeTab` (editor.js): dispose the document's model, delete it from
`openFiles`; if it was the active one, activate the first remaining
document (JS truthiness: an empty-string first key is falsy and falls
through to the clear branch) or clear the editor and render an empty
tab strip. -/
def closeTab (filePath : String) (ed : EditorState) : EditorState :=
  let ed1 :=
    match alookup filePath ed.openFiles with
    | some fd => { ed with disposed := ed.disposed ++ [fd.modelId] }
    | none => ed
  let ed2 := { ed1 with openFiles := aerase filePath ed1.openFiles }
  if ed2.activeFilePath = some filePath then
    let ed3 := { ed2 with activeFilePath := none }
    match ed3.openFiles with
    | (k, _) :: _ =>
      if k ≠ "" then
        switchTab k true ed3
      else
        let ed4 := clearEditor ed3
        { ed4 with tabBar := renderTabs ed4.openFiles ed4.activeFilePath }
    | [] =>
      let ed4 := clearEditor ed3
      { ed4 with tabBar := renderTabs ed4.openFiles ed4.activeFilePath }
  else
    { ed2 with tabBar := renderTabs ed2.openFiles ed2.activeFilePath }

/-- `getActiveFile` (editor.js); `!activeFilePath` is JS-falsy for
`null` and for the empty string. -/
def getActiveFile (ed : EditorState) : Option FileData :=
  match ed.activeFilePath with
  | none => none
  | some p => if p = "" then none else alookup p ed.openFiles

/-- `getActiveFilePath` (editor.js). -/
def getActiveFilePath (ed : EditorState) : Option String :=
  ed.activeFilePath

/-- `getEditorState` (editor.js): capture the active document's live
view state, then serialize every open document (path, full model text,
view state) plus the active path. -/
def getEditorState (ed : EditorState) : EditorState × EditorSnap :=
  let ed1 := captureViewState ed
  (ed1,
   { openFiles := ed1.openFiles.map (fun kv =>
       { path := kv.1, content := kv.2.content, viewState := kv.2.viewState })
     activeFile := ed1.activeFilePath })

/-- `getModelMarkers` (editor.js): the markers of the document's model,
or `[]` when the path is not open.  `markers` is the Monaco oracle
mapping a model id to its current diagnostic markers. -/
def getModelMarkers (filePath : String) (ed : EditorState)
    (markers : Nat → List Marker) : List Marker :=
  match alookup filePath ed.openFiles with
  | none => []
  | some fd => markers fd.modelId

/-- Text of the model currently bound to the editor widget (used by
`editor.getModel().getValueInRange(...)` and `editor.executeEdits`);
the bound model is the active document's model. -/
def activeModelText (ed : EditorState) : List Char :=
  match ed.activeFilePath with
  | none => []
  | some p =>
    match alookup p ed.openFiles with
    | none => []
    | some fd => fd.content

/-- `editor.executeEdits('ai-agent', [{range: selection, text}])`:
replace the selected range of the active buffer. -/
def executeEditsReplace (start len : Nat) (text : List Char) (ed : EditorState) :
    EditorState :=
  match ed.activeFilePath with
  | none => ed
  | some p =>
    ed |> fun e => { e with
      openFiles := aupdate p (fun fd =>
        { fd with content := fd.content.take start ++ text ++ fd.content.drop (start + len) }) e.openFiles }

/-- `Modelled from the spec:` the file-system collaborator's
`getFileHandleFromPath(root, path, {create})` (file_system.js is not
among the source files).  Per the collaborator contract it resolves a
path to a handle, optionally creating the file (empty) when absent, and
throws a not-found error otherwise. -/
def getFileHandleFromPath (disk : Disk) (path : String) (create : Bool) :
    Except String (String × Disk) :=
  if (alookup path disk).isSome then .ok (path, disk)
  else if create then .ok (path, disk ++ [(path, [])])
  else .error ("File not found: " ++ path)

/-- The per-entry loop of `restoreEditorState` (editor.js): for each
snapshot entry, re-acquire a handle (creating the file when absent —
the oracle above then never throws, so the `catch`/log branch is
modelled but unreachable), build a fresh model from the SAVED content
(not from disk) and install it with the saved view state. -/
def restoreLoop : List SnapFile → EditorState → Disk → EditorState × Disk
  | [], ed, disk => (ed, disk)
  | f :: rest, ed, disk =>
    match getFileHandleFromPath disk f.path true with
    | .ok pr =>
      let hp := pr.1
      let d2 := pr.2
      let fd : FileData :=
        { handle := hp
          name := lastSeg hp
          modelId := ed.nextModelId
          content := f.content
          language := getLanguageFromExtension (extOf f.path)
          viewState := f.viewState }
      restoreLoop rest
        { ed with openFiles := aset f.path fd ed.openFiles
                  nextModelId := ed.nextModelId + 1 } d2
    | .error _ => restoreLoop rest ed disk

/-- `restoreEditorState` (editor.js).  After installing the snapshot
entries: activate the recorded active path if it is truthy and still
present, else the first restored document, else just render the (empty)
tab strip.  (The embedded snapshot always carries its `openFiles`
field, so the JS early-return guard for a missing field is vacuous.) -/
def restoreEditorState (snap : EditorSnap) (ed : EditorState) (disk : Disk) :
    EditorState × Disk :=
  let ed1 := (restoreLoop snap.openFiles ed disk).1
  let d1 := (restoreLoop snap.openFiles ed disk).2
  let ed2 :=
    match snap.activeFile with
    | some a =>
      if a ≠ "" ∧ (alookup a ed1.openFiles).isSome then
        switchTab a true ed1
      else
        match ed1.openFiles with
        | (k, _) :: _ => switchTab k true ed1
        | [] => { ed1 with tabBar := renderTabs ed1.openFiles ed1.activeFilePath }
    | none =>
      match ed1.openFiles with
      | (k, _) :: _ => switchTab k true ed1
      | [] => { ed1 with tabBar := renderTabs ed1.openFiles ed1.activeFilePath }
  (ed2, d1)

/-- The close-all preamble of `restoreCheckpointState` (editor.js):
dispose every current model and delete every entry (net effect of the
loop on the JS `Map`), then null the active path. -/
def discardAllDocs (ed : EditorState) : EditorState :=
  { ed with
    disposed := ed.disposed ++ ed.openFiles.map (fun kv => kv.2.modelId)
    openFiles := []
    activeFilePath := none }

/-- `restoreCheckpointState` (editor.js): discard all current
documents, then restore from the snapshot. -/
def restoreCheckpointState (snap : EditorSnap) (ed : EditorState) (disk : Disk) :
    EditorState × Disk :=
  restoreEditorState snap (discardAllDocs ed) disk

/-! ## tool_executor.js: data for the dispatcher -/

/-- `toolCall.args`: the parameter record supplied by the model.  A JS
property that may be absent is an `Option` (`none` = `undefined`). -/
structure ToolArgs where
  filename : Option String := none
  line_number : Option Int := none
  content : Option (List Char) := none
  new_text : Option (List Char) := none
  folder_path : Option String := none
  old_folder_path : Option String := none
  new_folder_path : Option String := none
  old_path : Option String := none
  new_path : Option String := none
  url : Option String := none
  query : Option String := none
  search_term : Option String := none
  command : Option String := none
  deriving DecidableEq, Repr

/-- A tool's result object.  The source returns ad-hoc objects with one
or two fields (`{error}`, `{content}`, `{message}`, `{selected_text}`,
`{structure}`, `{results}` …); fields the claims never inspect are
collapsed into the abstract `payload` string.  All fields are optional
because the execution boundary may later add a `message` property to
any result object. -/
structure ToolResult where
  error : Option String := none
  message : Option String := none
  content : Option (List Char) := none
  selected_text : Option (List Char) := none
  payload : Option String := none
  deriving DecidableEq, Repr

/-- Invocations of external collaborators (file system, persistence,
network, UI, worker, parser, audit log), recorded in call order. -/
inductive Effect where
  | appendToolLog (toolName : String)
  | updateToolLog (success : Bool)
  | checkpointSave
  | consoleError
  | fsGetFileHandle (path : String)
  | fsReadFile (path : String)
  | fsWrite (path : String)
  | fsRemove (path : String)
  | fsRename (oldPath newPath : String)
  | fsCreateDir (path : String)
  | fsSearch
  | fsTree
  | refreshTree
  | networkFetch (endpoint : String)
  | dbSaveIndex
  | dbGetIndex
  | indexerBuild
  | indexerQuery
  | uiMessage
  | focusChat
  | markersQuery (path : String)
  | acornParse
  | workerPost (prettierParserName : String)
  | editOp
  deriving DecidableEq, Repr

/-- Oracles for the external collaborators a dispatched operation may
consult: the three network endpoints (`.ok` = HTTP ok / status Success
with the abstract response payload, `.error` = the message thrown),
the acorn parse, the stored codebase index, and the Monaco marker
oracle per model id. -/
structure Collab where
  readUrl : Except String String
  ddgSearch : Except String String
  terminal : Except String String
  acorn : Except String Unit
  codeIndex : Option Unit
  markers : Nat → List Marker

/-- All-succeeding collaborators with no stored index and no markers. -/
def collabDefault : Collab :=
  { readUrl := .ok "url result"
    ddgSearch := .ok "search results"
    terminal := .ok "output"
    acorn := .ok ()
    codeIndex := none
    markers := fun _ => [] }

/-- Outcome of `executeTool`: the returned result object or the thrown
error message, the editor and disk state after the call, and the
collaborator invocations made. -/
structure ExecOut where
  result : Except String ToolResult
  ed : EditorState
  disk : Disk
  effects : List Effect

/-- The fixed allow-list of tool names that require a non-absent
project-root handle (tool_executor.js, line 12). -/
def rootRequiredTools : List String :=
  ["create_file", "read_file", "search_code", "get_project_structure",
   "delete_file", "build_or_update_codebase_index", "query_codebase",
   "create_folder", "delete_folder", "rename_folder", "rewrite_file",
   "format_code", "analyze_code", "rename_file", "insert_content"]

/-- The mutating tool names that trigger automatic checkpoint
interception (tool_executor.js, line 22). -/
def checkpointTools : List String :=
  ["create_file", "delete_file", "rewrite_file", "rename_file",
   "create_folder", "delete_folder", "rename_folder", "insert_content"]

/-- The content-mutating tool names subject to the post-edit
diagnostics check (tool_executor.js, line 303). -/
def contentMutationTools : List String :=
  ["rewrite_file", "insert_content", "replace_selected_text"]

/-- Every tool name the dispatcher's `switch` has a case for. -/
def knownToolNames : List String :=
  ["get_project_structure", "read_file", "read_url", "create_file",
   "delete_file", "delete_folder", "rename_folder", "rename_file",
   "create_folder", "duckduckgo_search", "search_code",
   "get_open_file_content", "get_selected_text", "replace_selected_text",
   "run_terminal_command", "build_or_update_codebase_index",
   "query_codebase", "get_file_history", "rewrite_file", "format_code",
   "analyze_code", "insert_content"]

/-- The guard's error result text. -/
def noProjectMsg : String :=
  "No project folder is open. Please ask the user to open a folder before using this tool."

/-- `read_file`'s character cap. -/
def MAX_LENGTH : Nat := 30000

/-- The truncation notice `read_file` appends (this template literal in
the source uses real newline escapes). -/
def truncSuffix : List Char :=
  "\n\n... (file content truncated because it was too long)".data

/-- `Modelled from the spec:` the file-system collaborator
`renameEntry` (file_system.js is not a source file): move the entry and
everything under the old path to the new path. -/
def renameEntry (oldPath newPath : String) (disk : Disk) : Disk :=
  disk.map (fun kv =>
    if kv.1 = oldPath then (newPath, kv.2)
    else if kv.1.startsWith (oldPath ++ "/") then
      (newPath ++ kv.1.drop oldPath.length, kv.2)
    else kv)

/-- The collaborator invocations `openFile` performs (the fs read on a
fresh open; the caught-and-logged failure when the read fails). -/
def openFileEffects (disk : Disk) (handlePath filePath : String)
    (ed : EditorState) : List Effect :=
  if (alookup filePath ed.openFiles).isSome then []
  else
    match alookup handlePath disk with
    | none => [.consoleError]
    | some _ => [.fsReadFile handlePath]

/-! ## The dispatcher switch (tool_executor.js, `executeTool` lines 39-278) -/

/-- The `switch (toolName)` of `executeTool`, one arm per tool.  Thrown
JS errors are `.error`; returned objects are `.ok`. -/
def dispatchTool (toolName : String) (args : ToolArgs) (collab : Collab)
    (ed : EditorState) (disk : Disk) : ExecOut :=
  match toolName with
  | "get_project_structure" =>
    ⟨.ok { payload := some "structure" }, ed, disk, [.fsTree]⟩
  | "read_file" =>
    let fn := args.filename.getD ""
    match getFileHandleFromPath disk fn false with
    | .error m => ⟨.error m, ed, disk, [.fsGetFileHandle fn]⟩
    | .ok pr =>
      let hp := pr.1
      let d1 := pr.2
      let content := (alookup hp d1).getD []
      let content2 :=
        if content.length > MAX_LENGTH then content.take MAX_LENGTH ++ truncSuffix
        else content
      let fx := openFileEffects d1 hp fn ed
      let ed1 := openFile d1 hp fn false ed
      ⟨.ok { content := some content2 }, ed1, d1,
        [.fsGetFileHandle fn, .fsReadFile fn] ++ fx ++ [.focusChat]⟩
  | "read_url" =>
    match collab.readUrl with
    | .ok p => ⟨.ok { payload := some p }, ed, disk, [.networkFetch "/api/read-url"]⟩
    | .error m => ⟨.error m, ed, disk, [.networkFetch "/api/read-url"]⟩
  | "create_file" =>
    let fn := args.filename.getD ""
    match getFileHandleFromPath disk fn true with
    | .error m => ⟨.error m, ed, disk, [.fsGetFileHandle fn]⟩
    | .ok pr =>
      let hp := pr.1
      let d1 := pr.2
      let d2 := aset hp (args.content.getD []) d1
      let fx := openFileEffects d2 hp fn ed
      let ed1 := openFile d2 hp fn false ed
      ⟨.ok { message := some ("File \x27" ++ fn ++ "\x27 created successfully.") }, ed1, d2,
        [.fsGetFileHandle fn, .fsWrite fn, .refreshTree] ++ fx ++ [.focusChat]⟩
  | "delete_file" =>
    let fn := args.filename.getD ""
    if (alookup fn disk).isSome then
      let d1 := aerase fn disk
      let ed1 := if (alookup fn ed.openFiles).isSome then closeTab fn ed else ed
      ⟨.ok { message := some ("File \x27" ++ fn ++ "\x27 deleted successfully.") }, ed1, d1,
        [.fsRemove fn, .refreshTree]⟩
    else ⟨.error ("File not found: " ++ fn), ed, disk, []⟩
  | "delete_folder" =>
    let fp := args.folder_path.getD ""
    let d1 := disk.filter (fun kv => !(kv.1 == fp || kv.1.startsWith (fp ++ "/")))
    ⟨.ok { message := some ("Folder \x27" ++ fp ++ "\x27 deleted successfully.") }, ed, d1,
      [.fsRemove fp, .refreshTree]⟩
  | "rename_folder" =>
    let op := args.old_folder_path.getD ""
    let np := args.new_folder_path.getD ""
    ⟨.ok { message := some ("Folder \x27" ++ op ++ "\x27 renamed to \x27" ++ np ++ "\x27 successfully.") },
      ed, renameEntry op np disk, [.fsRename op np, .refreshTree]⟩
  | "rename_file" =>
    let op := args.old_path.getD ""
    let np := args.new_path.getD ""
    let d1 := renameEntry op np disk
    if (alookup op ed.openFiles).isSome then
      let ed1 := closeTab op ed
      match getFileHandleFromPath d1 np false with
      | .error m => ⟨.error m, ed1, d1, [.fsRename op np, .refreshTree, .fsGetFileHandle np]⟩
      | .ok pr =>
        let hp := pr.1
        let d2 := pr.2
        let fx := openFileEffects d2 hp np ed1
        let ed2 := openFile d2 hp np false ed1
        ⟨.ok { message := some ("File \x27" ++ op ++ "\x27 renamed to \x27" ++ np ++ "\x27 successfully.") },
          ed2, d2, [.fsRename op np, .refreshTree, .fsGetFileHandle np] ++ fx ++ [.focusChat]⟩
    else
      ⟨.ok { message := some ("File \x27" ++ op ++ "\x27 renamed to \x27" ++ np ++ "\x27 successfully.") },
        ed, d1, [.fsRename op np, .refreshTree]⟩
  | "create_folder" =>
    let fp := args.folder_path.getD ""
    ⟨.ok { message := some ("Folder \x27" ++ fp ++ "\x27 created successfully.") }, ed, disk,
      [.fsCreateDir fp, .refreshTree]⟩
  | "duckduckgo_search" =>
    match collab.ddgSearch with
    | .ok p => ⟨.ok { payload := some p }, ed, disk, [.networkFetch "/api/duckduckgo-search"]⟩
    | .error m => ⟨.error m, ed, disk, [.networkFetch "/api/duckduckgo-search"]⟩
  | "search_code" =>
    ⟨.ok { payload := some "results" }, ed, disk, [.fsSearch]⟩
  | "get_open_file_content" =>
    match getActiveFile ed with
    | none => ⟨.error "No file is currently open in the editor.", ed, disk, []⟩
    | some fd => ⟨.ok { payload := some fd.name, content := some fd.content }, ed, disk, []⟩
  | "get_selected_text" =>
    match ed.selection with
    | none => ⟨.error "No text is currently selected.", ed, disk, []⟩
    | some sel =>
      let s := sel.1
      let len := sel.2
      if len = 0 then ⟨.error "No text is currently selected.", ed, disk, []⟩
      else ⟨.ok { selected_text := some (((activeModelText ed).drop s).take len) }, ed, disk, []⟩
  | "replace_selected_text" =>
    match ed.selection with
    | none => ⟨.error "No text is selected to replace.", ed, disk, []⟩
    | some sel =>
      let s := sel.1
      let len := sel.2
      if len = 0 then ⟨.error "No text is selected to replace.", ed, disk, []⟩
      else ⟨.ok { message := some "Replaced the selected text." },
            executeEditsReplace s len (args.new_text.getD []) ed, disk, [.editOp]⟩
  | "run_terminal_command" =>
    match collab.terminal with
    | .ok out => ⟨.ok { payload := some out }, ed, disk, [.networkFetch "/api/execute-tool", .refreshTree]⟩
    | .error m => ⟨.error m, ed, disk, [.networkFetch "/api/execute-tool"]⟩
  | "build_or_update_codebase_index" =>
    ⟨.ok { message := some "Codebase index built successfully." }, ed, disk,
      [.uiMessage, .indexerBuild, .dbSaveIndex]⟩
  | "query_codebase" =>
    match collab.codeIndex with
    | none => ⟨.error "No codebase index. Please run \x27build_or_update_codebase_index\x27.", ed, disk, [.dbGetIndex]⟩
    | some _ => ⟨.ok { payload := some "results" }, ed, disk, [.dbGetIndex, .indexerQuery]⟩
  | "get_file_history" =>
    match collab.terminal with
    | .ok out => ⟨.ok { payload := some out }, ed, disk, [.networkFetch "/api/execute-tool"]⟩
    | .error m => ⟨.error m, ed, disk, [.networkFetch "/api/execute-tool"]⟩
  | "rewrite_file" =>
    let fn := args.filename.getD ""
    match getFileHandleFromPath disk fn false with
    | .error m => ⟨.error m, ed, disk, [.fsGetFileHandle fn]⟩
    | .ok pr =>
      let hp := pr.1
      let d1 := pr.2
      let c := args.content.getD []
      let d2 := aset hp c d1
      let ed1 :=
        if (alookup fn ed.openFiles).isSome then
          { ed with openFiles := aupdate fn (fun fd => { fd with content := c }) ed.openFiles }
        else ed
      let fx := openFileEffects d2 hp fn ed1
      let ed2 := openFile d2 hp fn false ed1
      ⟨.ok { message := some ("File \x27" ++ fn ++ "\x27 rewritten successfully.") }, ed2, d2,
        [.fsGetFileHandle fn, .fsWrite fn] ++ fx ++ [.focusChat]⟩
  | "format_code" =>
    let fn := args.filename.getD ""
    match getFileHandleFromPath disk fn false with
    | .error m => ⟨.error m, ed, disk, [.fsGetFileHandle fn]⟩
    | .ok pr =>
      let _hp := pr.1
      let d1 := pr.2
      ⟨.ok { message := some ("Formatting request for \x27" ++ fn ++ "\x27 sent.") }, ed, d1,
        [.fsGetFileHandle fn, .fsReadFile fn, .workerPost (getPrettierParser fn)]⟩
  | "analyze_code" =>
    let fn := args.filename.getD ""
    if fn.endsWith ".js" then
      match getFileHandleFromPath disk fn false with
      | .error m => ⟨.error m, ed, disk, [.fsGetFileHandle fn]⟩
      | .ok pr =>
        let _hp := pr.1
        let d1 := pr.2
        match collab.acorn with
        | .error m => ⟨.error m, ed, d1, [.fsGetFileHandle fn, .fsReadFile fn, .acornParse]⟩
        | .ok _ => ⟨.ok { payload := some "analysis" }, ed, d1, [.fsGetFileHandle fn, .fsReadFile fn, .acornParse]⟩
    else
      ⟨.error "This tool can only analyze .js files. Use read_file for others.", ed, disk, []⟩
  | "insert_content" =>
    let fn := args.filename.getD ""
    let ln := args.line_number.getD 0
    let c := args.content.getD []
    match getFileHandleFromPath disk fn false with
    | .error m => ⟨.error m, ed, disk, [.fsGetFileHandle fn]⟩
    | .ok pr =>
      let hp := pr.1
      let d1 := pr.2
      let originalContent := (alookup hp d1).getD []
      let lines := splitBsN originalContent
      let insertionPoint := (max 0 (ln - 1)).toNat
      let newContent := joinBsN (spliceInsert lines insertionPoint c)
      let d2 := aset hp newContent d1
      let ed1 :=
        if (alookup fn ed.openFiles).isSome then
          { ed with openFiles := aupdate fn (fun fd => { fd with content := newContent }) ed.openFiles }
        else ed
      let fx := openFileEffects d2 hp fn ed1
      let ed2 := openFile d2 hp fn false ed1
      ⟨.ok { message := some ("Content inserted into \x27" ++ fn ++ "\x27 at line " ++ toString ln ++ ".") },
        ed2, d2, [.fsGetFileHandle fn, .fsReadFile fn, .fsWrite fn] ++ fx ++ [.focusChat]⟩
  | _ => ⟨.error ("Unknown tool \x27" ++ toolName ++ "\x27."), ed, disk, []⟩

/-- The automatic checkpoint interception (tool_executor.js lines
21-37): for a mutating tool, capture the session snapshot; persist it
only when at least one document is open; any failure of the
persistence call is caught and logged. -/
def checkpointStep (toolName : String) (dbSaveOk : Bool) (ed : EditorState) :
    EditorState × List Effect :=
  if toolName ∈ checkpointTools then
    let (ed1, snap) := getEditorState ed
    if snap.openFiles.length > 0 then
      (ed1, .checkpointSave :: (if dbSaveOk then [] else [.consoleError]))
    else (ed1, [])
  else (ed, [])

/-- `executeTool` (tool_executor.js): the no-project-root guard, the
checkpoint interception, then the dispatcher switch.  `root` is the
(possibly absent) project-root handle; `dbSaveOk` is whether the
persistence collaborator's `saveCheckpoint` succeeds. -/
def executeTool (toolName : String) (args : ToolArgs) (root : Option Unit)
    (dbSaveOk : Bool) (collab : Collab) (ed : EditorState) (disk : Disk) : ExecOut :=
  if root = none ∧ toolName ∈ rootRequiredTools then
    ⟨.ok { error := some noProjectMsg }, ed, disk, []⟩
  else
    let cp := checkpointStep toolName dbSaveOk ed
    let d := dispatchTool toolName args collab cp.1 disk
    ⟨d.result, d.ed, d.disk, cp.2 ++ d.effects⟩

/-- Outcome of the execution boundary `execute`: the response handed to
the model, the success flag, the audit-log status and record, the final
states and the effect trace. -/
structure ExecuteOut where
  response : ToolResult
  isSuccess : Bool
  logStatus : String
  logBody : ToolResult
  ed : EditorState
  disk : Disk
  effects : List Effect

/-- `execute` (tool_executor.js lines 282-323): invoke `executeTool`,
convert a thrown error into `{error: "Error executing tool '<name>':
<message>"}` and mark the call failed; on success run the post-edit
diagnostics check for content-mutating tools (`parameters.filename ||
getActiveFilePath()`, JS-falsy on the empty string) and append a
warning block when error markers exist; finalize the audit log with
Success/Error. -/
def execute (toolName : String) (args : ToolArgs) (root : Option Unit)
    (dbSaveOk : Bool) (collab : Collab) (ed : EditorState) (disk : Disk) : ExecuteOut :=
  let out := executeTool toolName args root dbSaveOk collab ed disk
  match out.result with
  | .ok r =>
    let filePath : Option String :=
      match args.filename with
      | some f => if f = "" then getActiveFilePath out.ed else some f
      | none => getActiveFilePath out.ed
    let checked :=
      if toolName ∈ contentMutationTools then
        match filePath with
        | some fp =>
          if fp = "" then (r, ([] : List Effect))
          else
            let errs := (getModelMarkers fp out.ed collab.markers).filter (fun m => m.isError)
            if errs = [] then (r, [Effect.markersQuery fp])
            else
              let errorMessages := String.intercalate "\\n"
                (errs.map (fun e => "L" ++ toString e.line ++ ": " ++ e.message))
              ({ r with message := some ((r.message.getD "") ++
                  "\\n\\n**Warning**: The file was modified, but syntax errors were detected:\\n" ++
                  errorMessages) },
               [Effect.markersQuery fp])
        | none => (r, [])
      else (r, [])
    ⟨checked.1, true, "Success", checked.1, out.ed, out.disk,
      [.appendToolLog toolName] ++ out.effects ++ checked.2 ++ [.updateToolLog true]⟩
  | .error m =>
    let r : ToolResult := { error := some ("Error executing tool \x27" ++ toolName ++ "\x27: " ++ m) }
    ⟨r, false, "Error", { message := r.error }, out.ed, out.disk,
      [.appendToolLog toolName] ++ out.effects ++ [.updateToolLog false]⟩

/-! ## Concrete sample states for witnesses and counterexamples -/

def fdSampleA : FileData :=
  { handle := "a.txt", name := "a.txt", modelId := 0, content := ['a'],
    language := "plaintext", viewState := none }

def fdSampleB : FileData :=
  { handle := "b.txt", name := "b.txt", modelId := 1, content := ['b'],
    language := "plaintext", viewState := none }

/-- A session with two open documents, the first active. -/
def edTwoDocs : EditorState :=
  { initialEditorState with
    openFiles := [("a.txt", fdSampleA), ("b.txt", fdSampleB)]
    activeFilePath := some "a.txt"
    nextModelId := 2
    boundModel := some 0
    readOnly := false }

/-- A session with one open document, active. -/
def edOneDoc : EditorState :=
  { initialEditorState with
    openFiles := [("a.txt", fdSampleA)]
    activeFilePath := some "a.txt"
    nextModelId := 1
    boundModel := some 0
    readOnly := false }

/-- A file body one character over the read_file cap. -/
def bigContent : List Char := List.replicate 30001 'a'

/-! ## Session-level relations used by the invariant claims -/

/-- The session invariant: `activePath` is null or a key present in
`documents`. -/
def InvActive (ed : EditorState) : Prop :=
  match ed.activeFilePath with
  | none => True
  | some p => (alookup p ed.openFiles).isSome = true

/-- One step of the session state machine: the operations `open`,
`activate` (`switchTab`, which at every call site in the source
receives a path currently in `openFiles`), `close`, `clearEditor`,
`captureSessionState` (`getEditorState`), and snapshot restore
(both the additive `restoreEditorState` and the discarding
`restoreCheckpointState`). -/
inductive EditorStep : EditorState → EditorState → Prop where
  | openStep (ed : EditorState) (disk : Disk) (handlePath filePath : String)
      (focus : Bool) : EditorStep ed (openFile disk handlePath filePath focus ed)
  | activateStep (ed : EditorState) (filePath : String) (focus : Bool)
      (h : (alookup filePath ed.openFiles).isSome = true) :
      EditorStep ed (switchTab filePath focus ed)
  | closeStep (ed : EditorState) (filePath : String) :
      EditorStep ed (closeTab filePath ed)
  | clearStep (ed : EditorState) : EditorStep ed (clearEditor ed)
  | captureStep (ed : EditorState) : EditorStep ed (getEditorState ed).1
  | restoreStep (ed : EditorState) (snap : EditorSnap) (disk : Disk) :
      EditorStep ed (restoreEditorState snap ed disk).1
  | restoreCpStep (ed : EditorState) (snap : EditorSnap) (disk : Disk) :
      EditorStep ed (restoreCheckpointState snap ed disk).1

/-- Reachability from the freshly initialized editor. -/
def ReachableEditor (ed : EditorState) : Prop :=
  Relation.ReflTransGen EditorStep initialEditorState ed

/-- Apply a sequence of `open` calls, each with its own disk contents,
handle and focus flag. -/
def applyOpens : List (Disk × String × String × Bool) → EditorState → EditorState
  | [], ed => ed
  | (disk, hp, fp, focus) :: rest, ed => applyOpens rest (openFile disk hp fp focus ed)

/-! ## Association-list lemmas -/

theorem alookup_aset_self {α : Type} (k : String) (v : α) (l : List (String × α)) :
    alookup k (aset k v l) = some v := by
  induction l with
  | nil => simp [aset, alookup]
  | cons hd tl ih =>
    by_cases h : hd.1 = k
    · simp [aset, alookup, h]
    · cases hd
      simp_all [aset, alookup, h]

theorem alookup_aset_ne {α : Type} (k k2 : String) (v : α) (l : List (String × α))
    (h : k2 ≠ k) : alookup k2 (aset k v l) = alookup k2 l := by
  induction l with
  | nil => simp [aset, alookup, Ne.symm h]
  | cons hd tl ih =>
    cases hd with
    | mk hk hv =>
      by_cases h2 : hk = k
      · subst h2
        simp [aset, alookup, Ne.symm h]
      · simp only [aset, if_neg h2, alookup]
        by_cases h3 : hk = k2 <;> simp [h3, ih]

theorem akeys_aset_of_mem {α : Type} (k : String) (v : α) (l : List (String × α))
    (h : k ∈ akeys l) : akeys (aset k v l) = akeys l := by
  induction l with
  | nil => simp [akeys] at h
  | cons hd tl ih =>
    cases hd with
    | mk hk hv =>
      by_cases h2 : hk = k
      · simp [aset, h2, akeys]
      · rw [akeys, List.map_cons] at h
        rw [List.mem_cons] at h
        rcases h with h | h
        · exact absurd h.symm h2
        · have h4 := ih h
          simp only [aset, if_neg h2, akeys, List.map_cons, List.cons.injEq, true_and]
          simpa [akeys] using h4

theorem akeys_aset_of_not_mem {α : Type} (k : String) (v : α) (l : List (String × α))
    (h : k ∉ akeys l) : akeys (aset k v l) = akeys l ++ [k] := by
  induction l with
  | nil => simp [aset, akeys]
  | cons hd tl ih =>
    cases hd with
    | mk hk hv =>
      rw [akeys, List.map_cons, List.mem_cons] at h
      push_neg at h
      have h2 : hk ≠ k := Ne.symm h.1
      simp only [aset, if_neg h2, akeys, List.map_cons, List.cons_append,
        List.cons.injEq, true_and]
      exact ih h.2

theorem alookup_isSome_iff_mem_akeys {α : Type} (k : String) (l : List (String × α)) :
    (alookup k l).isSome = true ↔ k ∈ akeys l := by
  induction l with
  | nil => simp [alookup, akeys]
  | cons hd tl ih =>
    cases hd with
    | mk hk hv =>
      by_cases h : hk = k
      · subst h
        simp [alookup, akeys]
      · rw [alookup, if_neg h, akeys, List.map_cons, List.mem_cons]
        rw [akeys] at ih
        simp [ih, Ne.symm h]

theorem alookup_aupdate {α : Type} (k k2 : String) (f : α → α) (l : List (String × α)) :
    alookup k2 (aupdate k f l) =
      if k = k2 then (alookup k2 l).map f else alookup k2 l := by
  induction l with
  | nil => simp [aupdate, alookup]
  | cons hd tl ih =>
    cases hd with
    | mk hk hv =>
      by_cases h : hk = k
      · subst h
        by_cases h2 : hk = k2
        · subst h2
          simp [aupdate, alookup]
        · simp [aupdate, alookup, h2, ih]
      · by_cases h2 : hk = k2
        · subst h2
          simp [aupdate, alookup, h, Ne.symm h]
        · simp [aupdate, alookup, h, h2, ih]

theorem akeys_aupdate {α : Type} (k : String) (f : α → α) (l : List (String × α)) :
    akeys (aupdate k f l) = akeys l := by
  induction l with
  | nil => simp [aupdate]
  | cons hd tl ih =>
    cases hd with
    | mk hk hv =>
      by_cases h : hk = k
      · simp [aupdate, akeys, h]
      · simp only [aupdate, if_neg h, akeys, List.map_cons, List.cons.injEq, true_and]
        simpa [akeys] using ih

theorem alookup_aerase_ne {α : Type} (k k2 : String) (l : List (String × α))
    (h : k2 ≠ k) : alookup k2 (aerase k l) = alookup k2 l := by
  induction l with
  | nil => simp [aerase]
  | cons hd tl ih =>
    cases hd with
    | mk hk hv =>
      by_cases h2 : hk = k
      · subst h2
        simp [aerase, alookup, Ne.symm h]
      · simp only [aerase, if_neg h2, alookup]
        by_cases h3 : hk = k2 <;> simp [h3, ih]

theorem alookup_aerase_self {α : Type} (k : String) (l : List (String × α))
    (h : (akeys l).Nodup) : alookup k (aerase k l) = none := by
  induction l with
  | nil => simp [aerase, alookup]
  | cons hd tl ih =>
    cases hd with
    | mk hk hv =>
      simp only [akeys, List.map_cons, List.nodup_cons] at h
      by_cases h2 : hk = k
      · subst h2
        rw [aerase, if_pos rfl]
        rcases ha : alookup hk tl with _ | v
        · rfl
        · exact absurd ((alookup_isSome_iff_mem_akeys hk tl).mp (by simp [ha])) h.1
      · simp [aerase, h2, alookup, ih h.2]

/-! ## Editor-operation lemmas -/

theorem captureViewState_akeys (ed : EditorState) :
    akeys (captureViewState ed).openFiles = akeys ed.openFiles := by
  show akeys (capturedOpenFiles ed) = akeys ed.openFiles
  unfold capturedOpenFiles
  split
  · split
    · simp [akeys_aupdate]
    · rfl
  · rfl

theorem captureViewState_activeFilePath (ed : EditorState) :
    (captureViewState ed).activeFilePath = ed.activeFilePath := rfl

theorem captureViewState_isSome (q : String) (ed : EditorState) :
    (alookup q (captureViewState ed).openFiles).isSome =
      (alookup q ed.openFiles).isSome := by
  show (alookup q (capturedOpenFiles ed)).isSome = (alookup q ed.openFiles).isSome
  unfold capturedOpenFiles
  split
  · split
    · rw [alookup_aupdate]
      split
      · cases alookup q ed.openFiles <;> rfl
      · rfl
    · rfl
  · rfl

theorem captureViewState_content (q : String) (ed : EditorState) :
    (alookup q (captureViewState ed).openFiles).map FileData.content =
      (alookup q ed.openFiles).map FileData.content := by
  show (alookup q (capturedOpenFiles ed)).map FileData.content = _
  unfold capturedOpenFiles
  split
  · split
    · rw [alookup_aupdate]
      split
      · cases alookup q ed.openFiles <;> rfl
      · rfl
    · rfl
  · rfl

theorem captureViewState_disposed (ed : EditorState) :
    (captureViewState ed).disposed = ed.disposed := rfl

theorem captureViewState_nextModelId (ed : EditorState) :
    (captureViewState ed).nextModelId = ed.nextModelId := rfl

theorem switchTab_activeFilePath (p : String) (fo : Bool) (ed : EditorState) :
    (switchTab p fo ed).activeFilePath = some p := by
  unfold switchTab
  dsimp only
  split <;> rfl

theorem switchTab_akeys (p : String) (fo : Bool) (ed : EditorState) :
    akeys (switchTab p fo ed).openFiles = akeys ed.openFiles := by
  unfold switchTab
  dsimp only
  split <;> simpa using captureViewState_akeys ed

theorem switchTab_isSome (q p : String) (fo : Bool) (ed : EditorState) :
    (alookup q (switchTab p fo ed).openFiles).isSome =
      (alookup q ed.openFiles).isSome := by
  unfold switchTab
  dsimp only
  split <;> simpa using captureViewState_isSome q ed

theorem switchTab_content (q p : String) (fo : Bool) (ed : EditorState) :
    (alookup q (switchTab p fo ed).openFiles).map FileData.content =
      (alookup q ed.openFiles).map FileData.content := by
  unfold switchTab
  dsimp only
  split <;> simpa using captureViewState_content q ed

theorem switchTab_disposed (p : String) (fo : Bool) (ed : EditorState) :
    (switchTab p fo ed).disposed = ed.disposed := by
  unfold switchTab
  dsimp only
  split <;> simpa using captureViewState_disposed ed

theorem switchTab_focused_of_mem (p : String) (ed : EditorState)
    (h : (alookup p ed.openFiles).isSome = true) :
    (switchTab p true ed).focused = true := by
  unfold switchTab
  dsimp only
  split
  · rename_i heq
    have h2 := captureViewState_isSome p ed
    rw [heq, h] at h2
    simp at h2
  · rfl

theorem openFile_of_mem (disk : Disk) (hp fp : String) (fo : Bool) (ed : EditorState)
    (h : (alookup fp ed.openFiles).isSome = true) :
    openFile disk hp fp fo ed = switchTab fp fo ed := by
  simp [openFile, h]

/-! ## Claim theorems -/

/-- C1: the claim says `insert_content` splits the file's text on
newline, so that inserting "X" at line 1 of a file whose lines are
["a", "b"] yields the lines ["X", "a", "b"].  The code instead splits
and rejoins on the literal two-character sequence backslash-`n` (the JS
string literal expression in the source denotes backslash followed by
the letter n, not a newline), so the file "a\nb" is treated as a single
line and the written result is "X" ++ backslash ++ "n" ++ "a\nb" — not
the "X\na\nb" the claim requires.  This theorem evaluates the embedded
code at that failing input. -/
theorem c1_insert_content_splits_on_literal_backslash_n :
    (executeTool "insert_content"
        { filename := some "f", line_number := some 1, content := some ['X'] }
        (some ()) true collabDefault initialEditorState
        [("f", ['a', '\n', 'b'])]).disk
      = [("f", ['X', '\\', 'n', 'a', '\n', 'b'])]
    ∧ (executeTool "insert_content"
        { filename := some "f", line_number := some 1, content := some ['X'] }
        (some ()) true collabDefault initialEditorState
        [("f", ['a', '\n', 'b'])]).disk
      ≠ [("f", ['X', '\n', 'a', '\n', 'b'])] := by
  constructor
  · rfl
  · decide

theorem executeTool_guard_eq (toolName : String) (args : ToolArgs)
    (dbSaveOk : Bool) (collab : Collab) (ed : EditorState) (disk : Disk)
    (h : toolName ∈ rootRequiredTools) :
    executeTool toolName args none dbSaveOk collab ed disk =
      ⟨.ok { error := some noProjectMsg }, ed, disk, []⟩ := by
  simp [executeTool, h]

/-- C4: a tool call whose name is in the fixed root-required allow-list,
invoked with an absent project-root handle, short-circuits to the
immediate "No project folder is open" error result: the editor state
and disk are returned untouched and the effect trace is empty, so no
collaborator is invoked and no checkpoint is attempted. -/
theorem c4_root_guard_short_circuits (toolName : String) (args : ToolArgs)
    (dbSaveOk : Bool) (collab : Collab) (ed : EditorState) (disk : Disk)
    (h : toolName ∈ rootRequiredTools) :
    executeTool toolName args none dbSaveOk collab ed disk =
      ⟨.ok { error := some noProjectMsg }, ed, disk, []⟩ :=
  executeTool_guard_eq toolName args dbSaveOk collab ed disk h

/-- Witness for C4 at the concrete tool `read_file`. -/
theorem c4_root_guard_short_circuits_witness :
    "read_file" ∈ rootRequiredTools ∧
      executeTool "read_file" {} none true collabDefault initialEditorState [] =
        ⟨.ok { error := some noProjectMsg }, initialEditorState, [], []⟩ :=
  ⟨by decide,
   c4_root_guard_short_circuits "read_file" {} true collabDefault
     initialEditorState [] (by decide)⟩

/-! ## Checkpoint-interception lemmas (C5) -/

theorem checkpointSave_not_mem_openFileEffects (disk : Disk) (hp fp : String)
    (ed : EditorState) :
    Effect.checkpointSave ∉ openFileEffects disk hp fp ed := by
  unfold openFileEffects
  split
  · simp
  · split <;> simp

theorem checkpointSave_not_mem_dispatchTool (toolName : String) (args : ToolArgs)
    (collab : Collab) (ed : EditorState) (disk : Disk) :
    Effect.checkpointSave ∉ (dispatchTool toolName args collab ed disk).effects := by
  unfold dispatchTool
  repeat'
    first
      | split
      | dsimp only
  all_goals
    simp_all [List.mem_append, checkpointSave_not_mem_openFileEffects]

theorem checkpointTools_subset_rootRequired (t : String) (h : t ∈ checkpointTools) :
    t ∈ rootRequiredTools := by
  fin_cases h <;> decide

theorem getEditorState_snap_length (ed : EditorState) :
    (getEditorState ed).2.openFiles.length = ed.openFiles.length := by
  show ((captureViewState ed).openFiles.map _).length = _
  rw [List.length_map]
  have h := captureViewState_akeys ed
  have h2 : (akeys (captureViewState ed).openFiles).length =
      (akeys ed.openFiles).length := by rw [h]
  simpa [akeys, List.length_map] using h2

theorem checkpointStep_fst (t : String) (b : Bool) (ed : EditorState) :
    (checkpointStep t b ed).1 =
      if t ∈ checkpointTools then captureViewState ed else ed := by
  unfold checkpointStep
  split
  · rename_i h
    dsimp only
    split <;> simp [h, getEditorState]
  · rename_i h
    simp [h]

theorem checkpointSave_mem_checkpointStep (t : String) (b : Bool) (ed : EditorState) :
    Effect.checkpointSave ∈ (checkpointStep t b ed).2 ↔
      (t ∈ checkpointTools ∧ ed.openFiles ≠ []) := by
  unfold checkpointStep
  split
  · rename_i hmem
    dsimp only
    split
    · rename_i hlen
      rw [getEditorState_snap_length] at hlen
      constructor
      · intro _
        exact ⟨hmem, List.ne_nil_of_length_pos hlen⟩
      · intro _
        exact List.mem_cons_self _ _
    · rename_i hlen
      rw [getEditorState_snap_length] at hlen
      simp only [List.not_mem_nil, false_iff, not_and]
      intro _
      have h0 : ed.openFiles.length = 0 := by omega
      simp [List.length_eq_zero.mp h0]
  · rename_i hmem
    simp [hmem]

/-- C5 (amended): a checkpoint save is attempted exactly when the tool
name is in the mutating trigger set, at least one document is open, and
the call was not short-circuited by the absent-project-root guard
(every trigger tool is also root-required); and whether the persistence
call succeeds or fails never changes the result, editor state or disk
of the user's requested operation. -/
theorem c5_checkpoint_save_iff :
    (∀ (toolName : String) (args : ToolArgs) (root : Option Unit) (dbSaveOk : Bool)
        (collab : Collab) (ed : EditorState) (disk : Disk),
      Effect.checkpointSave ∈ (executeTool toolName args root dbSaveOk collab ed disk).effects ↔
        (toolName ∈ checkpointTools ∧ ed.openFiles ≠ [] ∧ root = some ())) ∧
    (∀ (toolName : String) (args : ToolArgs) (root : Option Unit)
        (collab : Collab) (ed : EditorState) (disk : Disk),
      (executeTool toolName args root true collab ed disk).result =
          (executeTool toolName args root false collab ed disk).result ∧
        (executeTool toolName args root true collab ed disk).ed =
          (executeTool toolName args root false collab ed disk).ed ∧
        (executeTool toolName args root true collab ed disk).disk =
          (executeTool toolName args root false collab ed disk).disk) := by
  constructor
  · intro toolName args root dbSaveOk collab ed disk
    unfold executeTool
    by_cases hguard : root = none ∧ toolName ∈ rootRequiredTools
    · rw [if_pos hguard]
      constructor
      · intro h
        simp at h
      · rintro ⟨_, _, hroot⟩
        rw [hguard.1] at hroot
        exact Option.noConfusion hroot
    · rw [if_neg hguard]
      dsimp only
      rw [List.mem_append, checkpointSave_mem_checkpointStep]
      constructor
      · rintro (⟨hcp, hne⟩ | hd)
        · refine ⟨hcp, hne, ?_⟩
          cases root with
          | none => exact absurd ⟨rfl, checkpointTools_subset_rootRequired _ hcp⟩ hguard
          | some u =>
            cases u
            rfl
        · exact absurd hd (checkpointSave_not_mem_dispatchTool _ _ _ _ _)
      · rintro ⟨hcp, hne, _⟩
        exact Or.inl ⟨hcp, hne⟩
  · intro toolName args root collab ed disk
    unfold executeTool
    by_cases hguard : root = none ∧ toolName ∈ rootRequiredTools
    · rw [if_pos hguard, if_pos hguard]
      exact ⟨rfl, rfl, rfl⟩
    · rw [if_neg hguard, if_neg hguard]
      dsimp only
      rw [checkpointStep_fst, checkpointStep_fst]
      exact ⟨rfl, rfl, rfl⟩

/-- C5 counterexample: create_file is in the trigger set and a document
is open, yet with an absent project root no checkpoint save is
attempted — the guard short-circuits first — refuting the claim's
"exactly when the tool is mutating and a document is open". -/
theorem c5_counterexample_guard_blocks_checkpoint :
    "create_file" ∈ checkpointTools ∧ edOneDoc.openFiles ≠ [] ∧
      Effect.checkpointSave ∉
        (executeTool "create_file" { filename := some "g", content := some ['h'] }
          none true collabDefault edOneDoc []).effects := by
  decide

/-- C3 (amended): closing the currently active document disposes its
buffer and removes it from the documents map; when other documents
remain (with a truthy first key), the insertion-order-first remaining
document is activated — with editor focus forced, since the source
calls switchTab with the focus parameter left at its default true;
closing the last open document clears the editor to the read-only
placeholder state with a null active path and an empty tab strip. -/
theorem c3_close_active_characterization (ed : EditorState) (p : String)
    (fd : FileData)
    (hnodup : (akeys ed.openFiles).Nodup)
    (hact : ed.activeFilePath = some p)
    (hlook : alookup p ed.openFiles = some fd) :
    fd.modelId ∈ (closeTab p ed).disposed ∧
    alookup p (closeTab p ed).openFiles = none ∧
    (∀ q qfd rest, aerase p ed.openFiles = (q, qfd) :: rest → q ≠ "" →
      (closeTab p ed).activeFilePath = some q ∧
      (closeTab p ed).focused = true) ∧
    (aerase p ed.openFiles = [] →
      (closeTab p ed).activeFilePath = none ∧
      (closeTab p ed).openFiles = [] ∧
      (closeTab p ed).boundModel = none ∧
      (closeTab p ed).readOnly = true ∧
      (closeTab p ed).tabBar = []) := by
  have hself := alookup_aerase_self p ed.openFiles hnodup
  simp only [closeTab, hlook, hact, ite_true]
  rcases herase : aerase p ed.openFiles with _ | ⟨⟨q, qfd⟩, rest⟩
  · dsimp only
    simp only [clearEditor, renderTabs]
    refine ⟨by simp, by simp [alookup], ?_, ?_⟩
    · intro q qfd rest h
      exact absurd h (by simp)
    · intro _
      simp [alookup]
  · dsimp only
    by_cases hq : q ≠ ""
    · rw [if_pos hq]
      refine ⟨?_, ?_, ?_, ?_⟩
      · rw [switchTab_disposed]
        simp
      · rw [← Option.not_isSome_iff_eq_none, switchTab_isSome]
        rw [herase] at hself
        simp only [alookup] at hself ⊢
        by_cases hqp : q = p
        · simp [hqp] at hself
        · simpa [hqp] using hself
      · intro q2 qfd2 rest2 heq hne2
        injection heq with heq1 heq2
        injection heq1 with heqq heqf
        subst heqq
        exact ⟨switchTab_activeFilePath _ _ _,
               switchTab_focused_of_mem _ _ (by simp [alookup])⟩
      · intro habs
        exact absurd habs (by simp)
    · rw [not_ne_iff] at hq
      subst hq
      rw [if_neg (by simp)]
      simp only [clearEditor, renderTabs]
      refine ⟨by simp, by simp [alookup], ?_, ?_⟩
      · intro q2 qfd2 rest2 heq hne2
        injection heq with heq1 _
        injection heq1 with heqq _
        exact absurd heqq.symm hne2
      · intro habs
        exact absurd habs (by simp)

/-- C3 counterexample: closing the active document while another
remains does activate the insertion-order next document, but it forces
editor focus (the claim says "without forcing input focus"): starting
unfocused, the editor ends focused. -/
theorem c3_counterexample_focus_forced :
    edTwoDocs.focused = false ∧
    (closeTab "a.txt" edTwoDocs).activeFilePath = some "b.txt" ∧
    (closeTab "a.txt" edTwoDocs).focused = true := by
  decide

/-- Witness for C3 at a concrete two-document session. -/
theorem c3_close_active_characterization_witness :
    (akeys edTwoDocs.openFiles).Nodup ∧
    edTwoDocs.activeFilePath = some "a.txt" ∧
    alookup "a.txt" edTwoDocs.openFiles = some fdSampleA ∧
    (fdSampleA.modelId ∈ (closeTab "a.txt" edTwoDocs).disposed ∧
      alookup "a.txt" (closeTab "a.txt" edTwoDocs).openFiles = none ∧
      (∀ q qfd rest, aerase "a.txt" edTwoDocs.openFiles = (q, qfd) :: rest → q ≠ "" →
        (closeTab "a.txt" edTwoDocs).activeFilePath = some q ∧
        (closeTab "a.txt" edTwoDocs).focused = true) ∧
      (aerase "a.txt" edTwoDocs.openFiles = [] →
        (closeTab "a.txt" edTwoDocs).activeFilePath = none ∧
        (closeTab "a.txt" edTwoDocs).openFiles = [] ∧
        (closeTab "a.txt" edTwoDocs).boundModel = none ∧
        (closeTab "a.txt" edTwoDocs).readOnly = true ∧
        (closeTab "a.txt" edTwoDocs).tabBar = [])) :=
  ⟨by decide, by decide, by decide,
   c3_close_active_characterization edTwoDocs "a.txt" fdSampleA
     (by decide) (by decide) (by decide)⟩

/-! ## openFile key lemmas (C9) -/

theorem openFile_akeys (disk : Disk) (hp fp : String) (fo : Bool) (ed : EditorState) :
    akeys (openFile disk hp fp fo ed).openFiles = akeys ed.openFiles ∨
    (fp ∉ akeys ed.openFiles ∧
      akeys (openFile disk hp fp fo ed).openFiles = akeys ed.openFiles ++ [fp]) := by
  unfold openFile
  split
  · left
    exact switchTab_akeys _ _ _
  · rename_i hmem
    have hnm : fp ∉ akeys ed.openFiles := by
      rw [← alookup_isSome_iff_mem_akeys]
      simp_all
    split
    · left
      rfl
    · right
      refine ⟨hnm, ?_⟩
      rw [switchTab_akeys]
      exact akeys_aset_of_not_mem _ _ _ hnm

theorem openFile_nodup (disk : Disk) (hp fp : String) (fo : Bool) (ed : EditorState)
    (h : (akeys ed.openFiles).Nodup) :
    (akeys (openFile disk hp fp fo ed).openFiles).Nodup := by
  rcases openFile_akeys disk hp fp fo ed with heq | ⟨hnm, heq⟩
  · rw [heq]
    exact h
  · rw [heq]
    simp [List.nodup_append, h, hnm]

/-- C9: `documents` never holds two buffers for the same path — after
any sequence of `open` calls from a duplicate-free session the keys are
still duplicate-free — and opening a path that is already in
`documents` is literally `activate(path, focus)`: the same state
results, so no new buffer is created. -/
theorem c9_open_idempotent :
    (∀ (ops : List (Disk × String × String × Bool)) (ed : EditorState),
      (akeys ed.openFiles).Nodup → (akeys (applyOpens ops ed).openFiles).Nodup) ∧
    (∀ (disk : Disk) (hp fp : String) (fo : Bool) (ed : EditorState),
      (alookup fp ed.openFiles).isSome = true →
        openFile disk hp fp fo ed = switchTab fp fo ed) := by
  constructor
  · intro ops
    induction ops with
    | nil =>
      intro ed h
      exact h
    | cons op rest ih =>
      intro ed h
      rcases op with ⟨disk, hp, fp, fo⟩
      exact ih _ (openFile_nodup disk hp fp fo ed h)
  · exact fun disk hp fp fo ed h => openFile_of_mem disk hp fp fo ed h

/-- Witness for C9: a concrete open sequence from the empty session,
and a concrete re-open of an already-open path. -/
theorem c9_open_idempotent_witness :
    ((akeys initialEditorState.openFiles).Nodup ∧
      (akeys (applyOpens
        [([("a.txt", ['a'])], "a.txt", "a.txt", true),
         ([("a.txt", ['a'])], "a.txt", "a.txt", false)]
        initialEditorState).openFiles).Nodup) ∧
    ((alookup "a.txt" edTwoDocs.openFiles).isSome = true ∧
      openFile [] "a.txt" "a.txt" false edTwoDocs = switchTab "a.txt" false edTwoDocs) :=
  ⟨⟨by decide,
    c9_open_idempotent.1
      [([("a.txt", ['a'])], "a.txt", "a.txt", true),
       ([("a.txt", ['a'])], "a.txt", "a.txt", false)]
      initialEditorState (by decide)⟩,
   ⟨by decide,
    c9_open_idempotent.2 [] "a.txt" "a.txt" false edTwoDocs (by decide)⟩⟩

/-! ## Invariant preservation (C8) -/

theorem alookup_aset_isSome_mono {α : Type} (q k : String) (v : α)
    (l : List (String × α)) (h : (alookup q l).isSome = true) :
    (alookup q (aset k v l)).isSome = true := by
  by_cases hqk : q = k
  · subst hqk
    rw [alookup_aset_self]
    rfl
  · rw [alookup_aset_ne _ _ _ _ hqk]
    exact h

theorem switchTab_invActive (p : String) (fo : Bool) (ed : EditorState)
    (h : (alookup p ed.openFiles).isSome = true) :
    InvActive (switchTab p fo ed) := by
  unfold InvActive
  simp only [switchTab_activeFilePath]
  rw [switchTab_isSome]
  exact h

theorem openFile_invActive (disk : Disk) (hp fp : String) (fo : Bool)
    (ed : EditorState) (h : InvActive ed) :
    InvActive (openFile disk hp fp fo ed) := by
  unfold openFile
  split
  · rename_i hmem
    exact switchTab_invActive _ _ _ hmem
  · split
    · exact h
    · apply switchTab_invActive
      dsimp only
      rw [alookup_aset_self]
      rfl

theorem clearEditor_invActive (ed : EditorState) : InvActive (clearEditor ed) :=
  trivial

theorem captureViewState_invActive (ed : EditorState) (h : InvActive ed) :
    InvActive (captureViewState ed) := by
  unfold InvActive at h ⊢
  cases hap : ed.activeFilePath with
  | none =>
    simp only [captureViewState_activeFilePath, hap]
  | some ap =>
    simp only [captureViewState_activeFilePath, hap] at h ⊢
    rw [captureViewState_isSome]
    exact h

theorem closeTab_invActive (p : String) (ed : EditorState) (h : InvActive ed) :
    InvActive (closeTab p ed) := by
  unfold closeTab
  split <;>
  · dsimp only
    split
    · split
      · split
        · rename_i heq2 hk
          apply switchTab_invActive
          rw [heq2]
          simp [alookup]
        · exact trivial
      · exact trivial
    · rename_i hne
      unfold InvActive at h ⊢
      cases hap : ed.activeFilePath with
      | none => simp only [hap]
      | some ap =>
        simp only [hap] at h ⊢
        have hnp : ap ≠ p := by
          intro hc
          subst hc
          exact hne (by simp [hap])
        rw [alookup_aerase_ne _ _ _ hnp]
        exact h

theorem restoreLoop_activeFilePath (fs : List SnapFile) (ed : EditorState)
    (disk : Disk) :
    (restoreLoop fs ed disk).1.activeFilePath = ed.activeFilePath := by
  induction fs generalizing ed disk with
  | nil => rfl
  | cons f rest ih =>
    unfold restoreLoop
    split
    · rw [ih]
    · rw [ih]

theorem restoreLoop_isSome_mono (q : String) (fs : List SnapFile)
    (ed : EditorState) (disk : Disk)
    (h : (alookup q ed.openFiles).isSome = true) :
    (alookup q (restoreLoop fs ed disk).1.openFiles).isSome = true := by
  induction fs generalizing ed disk with
  | nil => exact h
  | cons f rest ih =>
    unfold restoreLoop
    split
    · exact ih _ _ (alookup_aset_isSome_mono _ _ _ _ h)
    · exact ih _ _ h

theorem restoreLoop_invActive (fs : List SnapFile) (ed : EditorState)
    (disk : Disk) (h : InvActive ed) :
    InvActive (restoreLoop fs ed disk).1 := by
  unfold InvActive at h ⊢
  cases hap : ed.activeFilePath with
  | none => simp only [restoreLoop_activeFilePath, hap]
  | some ap =>
    simp only [restoreLoop_activeFilePath, hap] at h ⊢
    exact restoreLoop_isSome_mono _ _ _ _ (by simpa [hap] using h)

theorem restoreEditorState_invActive (snap : EditorSnap) (ed : EditorState)
    (disk : Disk) (h : InvActive ed) :
    InvActive (restoreEditorState snap ed disk).1 := by
  unfold restoreEditorState
  dsimp only
  split
  · split
    · rename_i hcond
      exact switchTab_invActive _ _ _ hcond.2
    · split
      · rename_i hcons
        apply switchTab_invActive
        rw [hcons]
        simp [alookup]
      · rename_i hnil
        have h1 := restoreLoop_invActive snap.openFiles ed disk h
        unfold InvActive at h1 ⊢
        cases hap : (restoreLoop snap.openFiles ed disk).1.activeFilePath with
        | none => simp only [hap]
        | some ap =>
          simp only [hap] at h1 ⊢
          exact h1
  · split
    · rename_i hcons
      apply switchTab_invActive
      rw [hcons]
      simp [alookup]
    · rename_i hnil
      have h1 := restoreLoop_invActive snap.openFiles ed disk h
      unfold InvActive at h1 ⊢
      cases hap : (restoreLoop snap.openFiles ed disk).1.activeFilePath with
      | none => simp only [hap]
      | some ap =>
        simp only [hap] at h1 ⊢
        exact h1

theorem restoreCheckpointState_invActive (snap : EditorSnap) (ed : EditorState)
    (disk : Disk) :
    InvActive (restoreCheckpointState snap ed disk).1 := by
  unfold restoreCheckpointState
  exact restoreEditorState_invActive _ _ _ trivial

theorem editorStep_invActive (a b : EditorState) (h : InvActive a)
    (hs : EditorStep a b) : InvActive b := by
  cases hs with
  | openStep disk hp fp fo => exact openFile_invActive disk hp fp fo a h
  | activateStep fp fo hmem => exact switchTab_invActive fp fo a hmem
  | closeStep fp => exact closeTab_invActive fp a h
  | clearStep => exact clearEditor_invActive a
  | captureStep => exact captureViewState_invActive a h
  | restoreStep snap disk => exact restoreEditorState_invActive snap a disk h
  | restoreCpStep snap disk => exact restoreCheckpointState_invActive snap a disk

/-- C8: in every session state reachable from the initialized editor by
any sequence of open, activate, close, clearEditor, session-state
capture and snapshot-restore steps, the active path is null or a key
present in the documents map. -/
theorem c8_active_path_invariant (ed : EditorState) (h : ReachableEditor ed) :
    InvActive ed := by
  unfold ReachableEditor at h
  induction h with
  | refl => exact trivial
  | tail _ hbc ih => exact editorStep_invActive _ _ ih hbc

/-- Witness for C8 at the concrete reachable state obtained by one
clearEditor step from the initial state. -/
theorem c8_active_path_invariant_witness :
    ReachableEditor (clearEditor initialEditorState) ∧
      InvActive (clearEditor initialEditorState) :=
  ⟨Relation.ReflTransGen.single (EditorStep.clearStep initialEditorState),
   c8_active_path_invariant _
     (Relation.ReflTransGen.single (EditorStep.clearStep initialEditorState))⟩

/-! ## read_file lemmas (C2) -/

theorem openFile_fresh_content (disk : Disk) (hp fp : String) (fo : Bool)
    (ed : EditorState) (c : List Char)
    (hnm : alookup fp ed.openFiles = none) (hc : alookup hp disk = some c) :
    (alookup fp (openFile disk hp fp fo ed).openFiles).map FileData.content = some c := by
  unfold openFile
  rw [hnm]
  simp only [Option.isSome_none, Bool.false_eq_true, if_false, reduceIte, hc]
  rw [switchTab_content]
  dsimp only
  rw [alookup_aset_self]
  rfl

theorem read_file_exec (args : ToolArgs) (dbOk : Bool) (collab : Collab)
    (ed : EditorState) (disk : Disk) (fn : String) (content : List Char)
    (hfn : args.filename = some fn)
    (hdisk : alookup fn disk = some content) :
    (executeTool "read_file" args (some ()) dbOk collab ed disk).result =
      .ok { content := some (if content.length > MAX_LENGTH
            then content.take MAX_LENGTH ++ truncSuffix else content) } ∧
    (executeTool "read_file" args (some ()) dbOk collab ed disk).ed =
      openFile disk fn fn false ed ∧
    (executeTool "read_file" args (some ()) dbOk collab ed disk).disk = disk := by
  unfold executeTool
  rw [if_neg (by simp)]
  dsimp only
  rw [checkpointStep_fst]
  rw [if_neg (by decide)]
  unfold dispatchTool
  simp only [hfn, Option.getD_some]
  unfold getFileHandleFromPath
  rw [if_pos (by simp [hdisk])]
  simp [hdisk]

/-- C2 (amended): read_file returns exactly the first 30,000 characters
plus the fixed truncation suffix when the content is longer than
30,000, and the content unchanged otherwise; but the text opened in
the editor is the FULL untruncated content — openFile re-reads the
file through its handle rather than receiving the truncated string. -/
theorem c2_read_file_truncation (args : ToolArgs) (dbOk : Bool) (collab : Collab)
    (ed : EditorState) (disk : Disk) (fn : String) (content : List Char)
    (hfn : args.filename = some fn)
    (hdisk : alookup fn disk = some content)
    (hfresh : alookup fn ed.openFiles = none) :
    (executeTool "read_file" args (some ()) dbOk collab ed disk).result =
      .ok { content := some (if content.length > 30000
            then content.take 30000 ++ truncSuffix else content) } ∧
    (alookup fn (executeTool "read_file" args (some ()) dbOk collab ed disk).ed.openFiles).map
        FileData.content = some content := by
  obtain ⟨h1, h2, _⟩ := read_file_exec args dbOk collab ed disk fn content hfn hdisk
  refine ⟨h1, ?_⟩
  rw [h2]
  exact openFile_fresh_content disk fn fn false ed content hfresh hdisk

/-- C2 counterexample: on a 30,001-character file the returned content
is capped at 30,000 characters plus the suffix, but the buffer opened
in the editor holds the full 30,001 characters — the two differ, so
"the opened buffer reflects the cap as well" is false. -/
theorem c2_counterexample_editor_gets_full_content :
    (executeTool "read_file" { filename := some "big.txt" } (some ()) true
        collabDefault initialEditorState [("big.txt", bigContent)]).result =
      .ok { content := some (bigContent.take 30000 ++ truncSuffix) } ∧
    (alookup "big.txt"
        (executeTool "read_file" { filename := some "big.txt" } (some ()) true
          collabDefault initialEditorState [("big.txt", bigContent)]).ed.openFiles).map
        FileData.content = some bigContent ∧
    some bigContent ≠ some (bigContent.take 30000 ++ truncSuffix) := by
  have hdisk : alookup "big.txt" ([("big.txt", bigContent)] : Disk) = some bigContent := by
    simp [alookup]
  have hlen : bigContent.length = 30001 := by
    unfold bigContent
    rw [List.length_replicate]
  obtain ⟨h1, h2⟩ := c2_read_file_truncation { filename := some "big.txt" } true
    collabDefault initialEditorState [("big.txt", bigContent)] "big.txt" bigContent
    rfl hdisk rfl
  refine ⟨?_, h2, ?_⟩
  · rw [h1, hlen]
    norm_num
  · intro h
    have h3 := congrArg (fun o : Option (List Char) => (o.getD []).length) h
    simp only [Option.getD_some] at h3
    rw [List.length_append, List.length_take, hlen] at h3
    have h4 : truncSuffix.length = 54 := by decide
    rw [h4] at h3
    norm_num at h3

/-- Witness for C2 at a concrete short file (content "ab", under the
cap, returned unchanged and opened in full). -/
theorem c2_read_file_truncation_witness :
    (({ filename := some "s.txt" } : ToolArgs).filename = some "s.txt" ∧
      alookup "s.txt" ([("s.txt", ['a', 'b'])] : Disk) = some ['a', 'b'] ∧
      alookup "s.txt" initialEditorState.openFiles = none) ∧
    ((executeTool "read_file" { filename := some "s.txt" } (some ()) true
        collabDefault initialEditorState [("s.txt", ['a', 'b'])]).result =
      .ok { content := some (if (['a', 'b'] : List Char).length > 30000
            then (['a', 'b'] : List Char).take 30000 ++ truncSuffix else ['a', 'b']) } ∧
      (alookup "s.txt" (executeTool "read_file" { filename := some "s.txt" } (some ()) true
          collabDefault initialEditorState [("s.txt", ['a', 'b'])]).ed.openFiles).map
          FileData.content = some ['a', 'b']) :=
  ⟨⟨rfl, by decide, rfl⟩,
   c2_read_file_truncation { filename := some "s.txt" } true collabDefault
     initialEditorState [("s.txt", ['a', 'b'])] "s.txt" ['a', 'b'] rfl (by decide) rfl⟩

/-! ## Snapshot-restore lemmas (C6) -/

theorem getFileHandleFromPath_create_ok (disk : Disk) (path : String) :
    getFileHandleFromPath disk path true =
      .ok (path, if (alookup path disk).isSome then disk else disk ++ [(path, [])]) := by
  unfold getFileHandleFromPath
  split
  · rfl
  · simp

theorem restoreLoop_disposed (fs : List SnapFile) :
    ∀ (ed : EditorState) (disk : Disk),
      (restoreLoop fs ed disk).1.disposed = ed.disposed := by
  induction fs with
  | nil =>
    intro ed disk
    rfl
  | cons f rest ih =>
    intro ed disk
    unfold restoreLoop
    split
    · rw [ih]
    · rw [ih]

theorem restoreLoop_lookup_preserve (q : String) (fs : List SnapFile) :
    ∀ (ed : EditorState) (disk : Disk), q ∉ fs.map SnapFile.path →
      alookup q (restoreLoop fs ed disk).1.openFiles = alookup q ed.openFiles := by
  induction fs with
  | nil =>
    intro ed disk _
    rfl
  | cons f rest ih =>
    intro ed disk hq
    rw [List.map_cons, List.mem_cons] at hq
    push_neg at hq
    unfold restoreLoop
    split
    · rw [ih _ _ hq.2]
      exact alookup_aset_ne _ _ _ _ hq.1
    · exact ih _ _ hq.2

theorem restoreLoop_akeys (fs : List SnapFile) :
    ∀ (ed : EditorState) (disk : Disk),
      (fs.map SnapFile.path).Nodup →
      (∀ f ∈ fs, f.path ∉ akeys ed.openFiles) →
      akeys (restoreLoop fs ed disk).1.openFiles =
        akeys ed.openFiles ++ fs.map SnapFile.path := by
  induction fs with
  | nil =>
    intro ed disk _ _
    simp [restoreLoop]
  | cons f rest ih =>
    intro ed disk hnodup hdisj
    have hfnotin : f.path ∉ akeys ed.openFiles := hdisj f (List.mem_cons_self _ _)
    unfold restoreLoop
    rw [getFileHandleFromPath_create_ok]
    dsimp only
    rw [ih _ _ (List.nodup_cons.mp hnodup).2 ?hdj]
    · dsimp only
      rw [akeys_aset_of_not_mem _ _ _ hfnotin]
      simp
    case hdj =>
      intro g hg
      dsimp only
      rw [akeys_aset_of_not_mem _ _ _ hfnotin]
      rw [List.mem_append]
      push_neg
      refine ⟨hdisj g (List.mem_cons_of_mem _ hg), ?_⟩
      simp only [List.mem_singleton]
      intro hc
      exact absurd (hc ▸ List.mem_map_of_mem SnapFile.path hg)
        (List.nodup_cons.mp hnodup).1

theorem restoreLoop_content (fs : List SnapFile) :
    ∀ (ed : EditorState) (disk : Disk),
      (fs.map SnapFile.path).Nodup →
      ∀ f ∈ fs, (alookup f.path (restoreLoop fs ed disk).1.openFiles).map
        FileData.content = some f.content := by
  induction fs with
  | nil =>
    intro ed disk _ f hf
    exact absurd hf (by simp)
  | cons g rest ih =>
    intro ed disk hnodup f hf
    unfold restoreLoop
    rw [getFileHandleFromPath_create_ok]
    dsimp only
    rcases List.mem_cons.mp hf with hfg | hftail
    · subst hfg
      rw [restoreLoop_lookup_preserve _ _ _ _ (List.nodup_cons.mp hnodup).1]
      dsimp only
      rw [alookup_aset_self]
      rfl
    · exact ih _ _ (List.nodup_cons.mp hnodup).2 f hftail

/-- C6: restoring a checkpoint snapshot (the discarding restore path)
first disposes every previously open buffer, and afterwards `documents`
holds exactly the snapshot's paths, each buffer built from the
snapshot's SAVED content (the on-disk contents are irrelevant); the
snapshot's recorded active path is activated if still present, else the
first restored document, else the tab strip is rendered empty with no
active path. -/
theorem c6_restore_checkpoint (snap : EditorSnap) (ed : EditorState) (disk : Disk)
    (hnodup : (snap.openFiles.map SnapFile.path).Nodup)
    (hact : snap.activeFile ≠ some "") :
    akeys (restoreCheckpointState snap ed disk).1.openFiles =
      snap.openFiles.map SnapFile.path ∧
    (∀ f ∈ snap.openFiles,
      (alookup f.path (restoreCheckpointState snap ed disk).1.openFiles).map
        FileData.content = some f.content) ∧
    (∀ kv ∈ ed.openFiles,
      kv.2.modelId ∈ (restoreCheckpointState snap ed disk).1.disposed) ∧
    (restoreCheckpointState snap ed disk).1.activeFilePath =
      (match snap.activeFile with
       | some a =>
         if a ∈ snap.openFiles.map SnapFile.path then some a
         else (snap.openFiles.map SnapFile.path).head?
       | none => (snap.openFiles.map SnapFile.path).head?) ∧
    (snap.openFiles = [] →
      (restoreCheckpointState snap ed disk).1.openFiles = [] ∧
      (restoreCheckpointState snap ed disk).1.activeFilePath = none ∧
      (restoreCheckpointState snap ed disk).1.tabBar = []) := by
  have hkeys : akeys (restoreLoop snap.openFiles (discardAllDocs ed) disk).1.openFiles =
      snap.openFiles.map SnapFile.path := by
    have h := restoreLoop_akeys snap.openFiles (discardAllDocs ed) disk hnodup
      (by intro f _; simp [discardAllDocs, akeys])
    simpa [discardAllDocs, akeys] using h
  have hcont := restoreLoop_content snap.openFiles (discardAllDocs ed) disk hnodup
  have hdisp : (restoreLoop snap.openFiles (discardAllDocs ed) disk).1.disposed =
      ed.disposed ++ ed.openFiles.map (fun kv => kv.2.modelId) :=
    restoreLoop_disposed snap.openFiles (discardAllDocs ed) disk
  have hmemdisp : ∀ kv ∈ ed.openFiles, kv.2.modelId ∈
      (restoreLoop snap.openFiles (discardAllDocs ed) disk).1.disposed := by
    intro kv hkv
    rw [hdisp, List.mem_append]
    exact Or.inr (List.mem_map_of_mem _ hkv)
  unfold restoreCheckpointState restoreEditorState
  dsimp only
  cases hsa : snap.activeFile with
  | some a =>
    dsimp only
    have ha : a ≠ "" := by
      intro hc
      subst hc
      exact hact hsa
    by_cases hmem : a ∈ snap.openFiles.map SnapFile.path
    · rw [if_pos ⟨ha, by rw [alookup_isSome_iff_mem_akeys, hkeys]; exact hmem⟩]
      refine ⟨?_, ?_, ?_, ?_, ?_⟩
      · rw [switchTab_akeys, hkeys]
      · intro f hf
        rw [switchTab_content]
        exact hcont f hf
      · intro kv hkv
        rw [switchTab_disposed]
        exact hmemdisp kv hkv
      · rw [switchTab_activeFilePath, if_pos hmem]
      · intro hnil
        rw [hnil] at hmem
        exact absurd hmem (by simp)
    · rw [if_neg (by
        intro hc
        rw [alookup_isSome_iff_mem_akeys, hkeys] at hc
        exact hmem hc.2)]
      rcases hof : (restoreLoop snap.openFiles (discardAllDocs ed) disk).1.openFiles
        with _ | ⟨⟨k, kfd⟩, tl⟩
      · have hempty : snap.openFiles.map SnapFile.path = [] := by
          rw [← hkeys, hof]
          rfl
        have hactiveL := restoreLoop_activeFilePath snap.openFiles (discardAllDocs ed) disk
        refine ⟨?_, ?_, ?_, ?_, ?_⟩
        · dsimp only
          simp [akeys, hempty]
        · intro f hf
          rw [List.map_eq_nil_iff] at hempty
          rw [hempty] at hf
          exact absurd hf (by simp)
        · intro kv hkv
          dsimp only
          exact hmemdisp kv hkv
        · dsimp only
          rw [if_neg hmem, hempty]
          exact hactiveL
        · intro _
          exact ⟨by dsimp only, by dsimp only; exact hactiveL, by simp [renderTabs]⟩
      · refine ⟨?_, ?_, ?_, ?_, ?_⟩
        · rw [switchTab_akeys, hkeys]
        · intro f hf
          rw [switchTab_content]
          exact hcont f hf
        · intro kv hkv
          rw [switchTab_disposed]
          exact hmemdisp kv hkv
        · rw [switchTab_activeFilePath, if_neg hmem]
          rw [← hkeys, hof]
          rfl
        · intro hnil
          have : akeys (restoreLoop snap.openFiles (discardAllDocs ed) disk).1.openFiles = [] := by
            rw [hkeys, hnil]
            rfl
          rw [hof] at this
          exact absurd this (by simp [akeys])
  | none =>
    dsimp only
    rcases hof : (restoreLoop snap.openFiles (discardAllDocs ed) disk).1.openFiles
      with _ | ⟨⟨k, kfd⟩, tl⟩
    · have hempty : snap.openFiles.map SnapFile.path = [] := by
        rw [← hkeys, hof]
        rfl
      have hactiveL := restoreLoop_activeFilePath snap.openFiles (discardAllDocs ed) disk
      refine ⟨?_, ?_, ?_, ?_, ?_⟩
      · dsimp only
        simp [akeys, hempty]
      · intro f hf
        rw [List.map_eq_nil_iff] at hempty
        rw [hempty] at hf
        exact absurd hf (by simp)
      · intro kv hkv
        dsimp only
        exact hmemdisp kv hkv
      · dsimp only
        rw [hempty]
        exact hactiveL
      · intro _
        exact ⟨by dsimp only, by dsimp only; exact hactiveL, by simp [renderTabs]⟩
    · refine ⟨?_, ?_, ?_, ?_, ?_⟩
      · rw [switchTab_akeys, hkeys]
      · intro f hf
        rw [switchTab_content]
        exact hcont f hf
      · intro kv hkv
        rw [switchTab_disposed]
        exact hmemdisp kv hkv
      · rw [switchTab_activeFilePath]
        rw [← hkeys, hof]
        rfl
      · intro hnil
        have : akeys (restoreLoop snap.openFiles (discardAllDocs ed) disk).1.openFiles = [] := by
          rw [hkeys, hnil]
          rfl
        rw [hof] at this
        exact absurd this (by simp [akeys])

/-- Witness for C6 at a concrete snapshot of two files restored over a
one-document session. -/
theorem c6_restore_checkpoint_witness :
    (((⟨[⟨"p.txt", ['P'], some 7⟩, ⟨"q.txt", ['Q'], none⟩], some "q.txt"⟩ :
        EditorSnap).openFiles.map SnapFile.path).Nodup ∧
      (⟨[⟨"p.txt", ['P'], some 7⟩, ⟨"q.txt", ['Q'], none⟩], some "q.txt"⟩ :
        EditorSnap).activeFile ≠ some "") ∧
    akeys (restoreCheckpointState
        ⟨[⟨"p.txt", ['P'], some 7⟩, ⟨"q.txt", ['Q'], none⟩], some "q.txt"⟩
        edOneDoc []).1.openFiles = ["p.txt", "q.txt"] :=
  ⟨⟨by decide, by decide⟩, by
    have h := (c6_restore_checkpoint
      ⟨[⟨"p.txt", ['P'], some 7⟩, ⟨"q.txt", ['Q'], none⟩], some "q.txt"⟩
      edOneDoc [] (by decide) (by decide)).1
    simpa using h⟩

/-! ## Execution-boundary lemmas (C7, C10) -/

theorem checkpointStep_not_mem (t : String) (b : Bool) (ed : EditorState)
    (h : t ∉ checkpointTools) : checkpointStep t b ed = (ed, []) := by
  unfold checkpointStep
  rw [if_neg h]

theorem rootRequired_subset_known (t : String) (h : t ∈ rootRequiredTools) :
    t ∈ knownToolNames := by
  fin_cases h <;> decide

theorem checkpointTools_subset_known (t : String) (h : t ∈ checkpointTools) :
    t ∈ knownToolNames := by
  fin_cases h <;> decide

theorem execute_ok (toolName : String) (args : ToolArgs) (root : Option Unit)
    (dbSaveOk : Bool) (collab : Collab) (ed : EditorState) (disk : Disk)
    (r : ToolResult)
    (h : (executeTool toolName args root dbSaveOk collab ed disk).result = .ok r) :
    (execute toolName args root dbSaveOk collab ed disk).isSuccess = true ∧
    (execute toolName args root dbSaveOk collab ed disk).logStatus = "Success" ∧
    (execute toolName args root dbSaveOk collab ed disk).ed =
      (executeTool toolName args root dbSaveOk collab ed disk).ed ∧
    (execute toolName args root dbSaveOk collab ed disk).disk =
      (executeTool toolName args root dbSaveOk collab ed disk).disk ∧
    (execute toolName args root dbSaveOk collab ed disk).response.error = r.error ∧
    (execute toolName args root dbSaveOk collab ed disk).logBody =
      (execute toolName args root dbSaveOk collab ed disk).response := by
  unfold execute
  dsimp only
  rw [h]
  dsimp only
  refine ⟨rfl, rfl, rfl, rfl, ?_, rfl⟩
  split
  · split
    · split
      · rfl
      · split
        · rfl
        · rfl
    · rfl
  · rfl

theorem execute_err (toolName : String) (args : ToolArgs) (root : Option Unit)
    (dbSaveOk : Bool) (collab : Collab) (ed : EditorState) (disk : Disk)
    (m : String)
    (h : (executeTool toolName args root dbSaveOk collab ed disk).result = .error m) :
    (execute toolName args root dbSaveOk collab ed disk).isSuccess = false ∧
    (execute toolName args root dbSaveOk collab ed disk).logStatus = "Error" ∧
    (execute toolName args root dbSaveOk collab ed disk).response =
      { error := some ("Error executing tool \x27" ++ toolName ++ "\x27: " ++ m) } ∧
    (execute toolName args root dbSaveOk collab ed disk).ed =
      (executeTool toolName args root dbSaveOk collab ed disk).ed ∧
    (execute toolName args root dbSaveOk collab ed disk).disk =
      (executeTool toolName args root dbSaveOk collab ed disk).disk := by
  unfold execute
  dsimp only
  rw [h]
  exact ⟨rfl, rfl, rfl, rfl, rfl⟩

theorem executeTool_get_selected_text_empty (args : ToolArgs) (root : Option Unit)
    (dbSaveOk : Bool) (collab : Collab) (ed : EditorState) (disk : Disk)
    (hsel : ed.selection = none ∨ ∃ s, ed.selection = some (s, 0)) :
    executeTool "get_selected_text" args root dbSaveOk collab ed disk =
      ⟨.error "No text is currently selected.", ed, disk, []⟩ := by
  unfold executeTool
  rw [if_neg (fun hc => absurd hc.2 (by decide))]
  rw [checkpointStep_not_mem _ _ _ (by decide)]
  dsimp only
  unfold dispatchTool
  rcases hsel with hnone | ⟨s, hzero⟩
  · simp [hnone]
  · simp [hzero]

theorem executeTool_replace_selected_text_empty (args : ToolArgs) (root : Option Unit)
    (dbSaveOk : Bool) (collab : Collab) (ed : EditorState) (disk : Disk)
    (hsel : ed.selection = none ∨ ∃ s, ed.selection = some (s, 0)) :
    executeTool "replace_selected_text" args root dbSaveOk collab ed disk =
      ⟨.error "No text is selected to replace.", ed, disk, []⟩ := by
  unfold executeTool
  rw [if_neg (fun hc => absurd hc.2 (by decide))]
  rw [checkpointStep_not_mem _ _ _ (by decide)]
  dsimp only
  unfold dispatchTool
  rcases hsel with hnone | ⟨s, hzero⟩
  · simp [hnone]
  · simp [hzero]

theorem executeTool_analyze_code_not_js (args : ToolArgs)
    (dbSaveOk : Bool) (collab : Collab) (ed : EditorState) (disk : Disk)
    (fn : String)
    (hfn : args.filename = some fn) (hjs : fn.endsWith ".js" = false) :
    executeTool "analyze_code" args (some ()) dbSaveOk collab ed disk =
      ⟨.error "This tool can only analyze .js files. Use read_file for others.",
        ed, disk, []⟩ := by
  unfold executeTool
  rw [if_neg (by simp)]
  rw [checkpointStep_not_mem _ _ _ (by decide)]
  dsimp only
  unfold dispatchTool
  simp [hfn, hjs]

theorem executeTool_unknown (t : String) (args : ToolArgs) (root : Option Unit)
    (dbSaveOk : Bool) (collab : Collab) (ed : EditorState) (disk : Disk)
    (hunk : t ∉ knownToolNames) :
    executeTool t args root dbSaveOk collab ed disk =
      ⟨.error ("Unknown tool \x27" ++ t ++ "\x27."), ed, disk, []⟩ := by
  have hnr : t ∉ rootRequiredTools := fun hc => hunk (rootRequired_subset_known t hc)
  have hnc : t ∉ checkpointTools := fun hc => hunk (checkpointTools_subset_known t hc)
  unfold executeTool
  rw [if_neg (fun hc => hnr hc.2)]
  rw [checkpointStep_not_mem _ _ _ hnc]
  dsimp only
  unfold dispatchTool
  split
  all_goals
    first
      | rfl
      | exact absurd (by decide) hunk

/-- C7 (amended): every precondition failure leaves the editor and the
disk unmutated, and the caller receives an error result; but only the
no-project-root guard's message arrives verbatim — the no-selection,
wrong-extension and unknown-tool preconditions are thrown inside the
dispatcher and surface wrapped as "Error executing tool '<name>':
<message>". -/
theorem c7_precondition_errors :
    (∀ (t : String) (args : ToolArgs) (dbSaveOk : Bool) (collab : Collab)
        (ed : EditorState) (disk : Disk), t ∈ rootRequiredTools →
      (execute t args none dbSaveOk collab ed disk).response.error = some noProjectMsg ∧
      (execute t args none dbSaveOk collab ed disk).ed = ed ∧
      (execute t args none dbSaveOk collab ed disk).disk = disk) ∧
    (∀ (args : ToolArgs) (root : Option Unit) (dbSaveOk : Bool) (collab : Collab)
        (ed : EditorState) (disk : Disk),
      (ed.selection = none ∨ ∃ s, ed.selection = some (s, 0)) →
      (execute "get_selected_text" args root dbSaveOk collab ed disk).response =
        { error := some ("Error executing tool \x27" ++ "get_selected_text" ++ "\x27: " ++
            "No text is currently selected.") } ∧
      (execute "get_selected_text" args root dbSaveOk collab ed disk).isSuccess = false ∧
      (execute "get_selected_text" args root dbSaveOk collab ed disk).ed = ed ∧
      (execute "get_selected_text" args root dbSaveOk collab ed disk).disk = disk) ∧
    (∀ (args : ToolArgs) (root : Option Unit) (dbSaveOk : Bool) (collab : Collab)
        (ed : EditorState) (disk : Disk),
      (ed.selection = none ∨ ∃ s, ed.selection = some (s, 0)) →
      (execute "replace_selected_text" args root dbSaveOk collab ed disk).response =
        { error := some ("Error executing tool \x27" ++ "replace_selected_text" ++ "\x27: " ++
            "No text is selected to replace.") } ∧
      (execute "replace_selected_text" args root dbSaveOk collab ed disk).isSuccess = false ∧
      (execute "replace_selected_text" args root dbSaveOk collab ed disk).ed = ed ∧
      (execute "replace_selected_text" args root dbSaveOk collab ed disk).disk = disk) ∧
    (∀ (args : ToolArgs) (dbSaveOk : Bool) (collab : Collab)
        (ed : EditorState) (disk : Disk) (fn : String),
      args.filename = some fn → fn.endsWith ".js" = false →
      (execute "analyze_code" args (some ()) dbSaveOk collab ed disk).response =
        { error := some ("Error executing tool \x27" ++ "analyze_code" ++ "\x27: " ++
            "This tool can only analyze .js files. Use read_file for others.") } ∧
      (execute "analyze_code" args (some ()) dbSaveOk collab ed disk).isSuccess = false ∧
      (execute "analyze_code" args (some ()) dbSaveOk collab ed disk).ed = ed ∧
      (execute "analyze_code" args (some ()) dbSaveOk collab ed disk).disk = disk) ∧
    (∀ (t : String) (args : ToolArgs) (root : Option Unit) (dbSaveOk : Bool)
        (collab : Collab) (ed : EditorState) (disk : Disk),
      t ∉ knownToolNames →
      (execute t args root dbSaveOk collab ed disk).response =
        { error := some ("Error executing tool \x27" ++ t ++ "\x27: " ++
            ("Unknown tool \x27" ++ t ++ "\x27.")) } ∧
      (execute t args root dbSaveOk collab ed disk).isSuccess = false ∧
      (execute t args root dbSaveOk collab ed disk).ed = ed ∧
      (execute t args root dbSaveOk collab ed disk).disk = disk) := by
  refine ⟨?_, ?_, ?_, ?_, ?_⟩
  · intro t args dbSaveOk collab ed disk h
    have hg := executeTool_guard_eq t args dbSaveOk collab ed disk h
    have hr : (executeTool t args none dbSaveOk collab ed disk).result =
        .ok { error := some noProjectMsg } := by rw [hg]
    obtain ⟨_, _, hed, hdisk2, herr, _⟩ :=
      execute_ok t args none dbSaveOk collab ed disk _ hr
    refine ⟨by rw [herr], ?_, ?_⟩
    · rw [hed, hg]
    · rw [hdisk2, hg]
  · intro args root dbSaveOk collab ed disk hsel
    have hx := executeTool_get_selected_text_empty args root dbSaveOk collab ed disk hsel
    have hr : (executeTool "get_selected_text" args root dbSaveOk collab ed disk).result =
        .error "No text is currently selected." := by rw [hx]
    obtain ⟨h1, _, h3, h4, h5⟩ := execute_err _ _ _ _ _ _ _ _ hr
    exact ⟨h3, h1, by rw [h4, hx], by rw [h5, hx]⟩
  · intro args root dbSaveOk collab ed disk hsel
    have hx := executeTool_replace_selected_text_empty args root dbSaveOk collab ed disk hsel
    have hr : (executeTool "replace_selected_text" args root dbSaveOk collab ed disk).result =
        .error "No text is selected to replace." := by rw [hx]
    obtain ⟨h1, _, h3, h4, h5⟩ := execute_err _ _ _ _ _ _ _ _ hr
    exact ⟨h3, h1, by rw [h4, hx], by rw [h5, hx]⟩
  · intro args dbSaveOk collab ed disk fn hfn hjs
    have hx := executeTool_analyze_code_not_js args dbSaveOk collab ed disk fn hfn hjs
    have hr : (executeTool "analyze_code" args (some ()) dbSaveOk collab ed disk).result =
        .error "This tool can only analyze .js files. Use read_file for others." := by
      rw [hx]
    obtain ⟨h1, _, h3, h4, h5⟩ := execute_err _ _ _ _ _ _ _ _ hr
    exact ⟨h3, h1, by rw [h4, hx], by rw [h5, hx]⟩
  · intro t args root dbSaveOk collab ed disk hunk
    have hx := executeTool_unknown t args root dbSaveOk collab ed disk hunk
    have hr : (executeTool t args root dbSaveOk collab ed disk).result =
        .error ("Unknown tool \x27" ++ t ++ "\x27.") := by rw [hx]
    obtain ⟨h1, _, h3, h4, h5⟩ := execute_err _ _ _ _ _ _ _ _ hr
    exact ⟨h3, h1, by rw [h4, hx], by rw [h5, hx]⟩

/-- C7 counterexample: the no-selection precondition error does NOT
reach the caller verbatim — replace_selected_text with an empty
selection yields the wrapped message, not the thrown message itself. -/
theorem c7_counterexample_not_verbatim :
    (execute "replace_selected_text" {} (some ()) true collabDefault
        initialEditorState []).response.error =
      some "Error executing tool \x27replace_selected_text\x27: No text is selected to replace." ∧
    (execute "replace_selected_text" {} (some ()) true collabDefault
        initialEditorState []).response.error ≠
      some "No text is selected to replace." := by
  decide

/-- Witness for C7 at concrete inputs for the guard, the empty
selection and an unknown tool name. -/
theorem c7_precondition_errors_witness :
    ("read_file" ∈ rootRequiredTools ∧
      (execute "read_file" {} none true collabDefault initialEditorState []).response.error =
        some noProjectMsg) ∧
    ((initialEditorState.selection = none ∨
        ∃ s, initialEditorState.selection = some (s, 0)) ∧
      (execute "get_selected_text" {} (some ()) true collabDefault
        initialEditorState []).isSuccess = false) ∧
    ("bogus" ∉ knownToolNames ∧
      (execute "bogus" {} (some ()) true collabDefault initialEditorState []).response =
        { error := some ("Error executing tool \x27" ++ "bogus" ++ "\x27: " ++
            ("Unknown tool \x27" ++ "bogus" ++ "\x27.")) }) :=
  ⟨⟨by decide,
    (c7_precondition_errors.1 "read_file" {} true collabDefault
      initialEditorState [] (by decide)).1⟩,
   ⟨Or.inl rfl,
    (c7_precondition_errors.2.1 {} (some ()) true collabDefault
      initialEditorState [] (Or.inl rfl)).2.1⟩,
   ⟨by decide,
    (c7_precondition_errors.2.2.2.2 "bogus" {} (some ()) true collabDefault
      initialEditorState [] (by decide)).1⟩⟩

/-- C10: the execution boundary marks a call failed only when the
dispatcher THROWS; a returned error-bearing result — as produced by the
no-project-root guard — is treated as success: isSuccess stays true,
the audit log is finalized with status Success and its record is built
from the error-bearing response, and for the content-mutating tool
names the post-edit diagnostics check still runs, querying the markers
of the path named in the parameters. -/
theorem c10_error_result_treated_as_success :
    (∀ (t : String) (args : ToolArgs) (root : Option Unit) (dbSaveOk : Bool)
        (collab : Collab) (ed : EditorState) (disk : Disk),
      (execute t args root dbSaveOk collab ed disk).isSuccess = false ↔
        ∃ m, (executeTool t args root dbSaveOk collab ed disk).result = .error m) ∧
    (∀ (args : ToolArgs) (dbSaveOk : Bool) (collab : Collab) (ed : EditorState)
        (disk : Disk) (fn : String) (t : String),
      t ∈ (["rewrite_file", "insert_content"] : List String) →
      args.filename = some fn → fn ≠ "" →
      (execute t args none dbSaveOk collab ed disk).isSuccess = true ∧
      (execute t args none dbSaveOk collab ed disk).logStatus = "Success" ∧
      (execute t args none dbSaveOk collab ed disk).response.error = some noProjectMsg ∧
      (execute t args none dbSaveOk collab ed disk).logBody =
        (execute t args none dbSaveOk collab ed disk).response ∧
      Effect.markersQuery fn ∈ (execute t args none dbSaveOk collab ed disk).effects) := by
  constructor
  · intro t args root dbSaveOk collab ed disk
    rcases hres : (executeTool t args root dbSaveOk collab ed disk).result with m | r
    · obtain ⟨h1, _, _, _, _⟩ := execute_err t args root dbSaveOk collab ed disk m hres
      rw [h1]
      simp
    · obtain ⟨h1, _⟩ := execute_ok t args root dbSaveOk collab ed disk r hres
      rw [h1]
      constructor
      · intro hfalse
        exact absurd hfalse (by simp)
      · rintro ⟨m, hm⟩
        exact absurd hm (by simp)
  · intro args dbSaveOk collab ed disk fn t htool hfn hne
    have hroot : t ∈ rootRequiredTools := by fin_cases htool <;> decide
    have hmut : t ∈ contentMutationTools := by fin_cases htool <;> decide
    have hg := executeTool_guard_eq t args dbSaveOk collab ed disk hroot
    have hr : (executeTool t args none dbSaveOk collab ed disk).result =
        .ok { error := some noProjectMsg } := by rw [hg]
    obtain ⟨h1, h2, _, _, herr, hlog⟩ :=
      execute_ok t args none dbSaveOk collab ed disk _ hr
    refine ⟨h1, h2, by rw [herr], hlog, ?_⟩
    unfold execute
    rw [hg]
    dsimp only
    rw [if_pos hmut, hfn]
    dsimp only
    rw [if_neg hne]
    dsimp only
    rw [if_neg hne]
    split <;> simp

/-- Witness for C10 at the concrete guard-blocked rewrite_file call. -/
theorem c10_error_result_treated_as_success_witness :
    ("rewrite_file" ∈ (["rewrite_file", "insert_content"] : List String) ∧
      ({ filename := some "f.js" } : ToolArgs).filename = some "f.js" ∧
      "f.js" ≠ "") ∧
    ((execute "rewrite_file" { filename := some "f.js" } none true collabDefault
        initialEditorState []).isSuccess = true ∧
      (execute "rewrite_file" { filename := some "f.js" } none true collabDefault
        initialEditorState []).logStatus = "Success" ∧
      (execute "rewrite_file" { filename := some "f.js" } none true collabDefault
        initialEditorState []).response.error = some noProjectMsg ∧
      (execute "rewrite_file" { filename := some "f.js" } none true collabDefault
        initialEditorState []).logBody =
        (execute "rewrite_file" { filename := some "f.js" } none true collabDefault
          initialEditorState []).response ∧
      Effect.markersQuery "f.js" ∈ (execute "rewrite_file" { filename := some "f.js" }
        none true collabDefault initialEditorState []).effects) :=
  ⟨⟨by decide, rfl, by decide⟩,
   c10_error_result_treated_as_success.2 { filename := some "f.js" } true collabDefault
     initialEditorState [] "f.js" "rewrite_file" (by decide) rfl (by decide)⟩

end AICodeEditor
